/-
Verification of the Idea2Paper / Paper-KG-Pipeline core against its
natural-language specification.

The Python sources under scripts/ are shallowly embedded below:
  * text tokenization and Jaccard similarity (recall_system.RecallSystem.
    _compute_text_similarity and idea2story_pipeline.RAGVerifier.
    _compute_similarity share the same definition),
  * RAGVerifier.verify (collision check over the first 50 papers),
  * MultiAgentCritic.review / _diagnose_issue (score reduction),
  * PatternSelector.select,
  * RefinementEngine tail/head injection and the used-pattern set,
  * Idea2StoryPipeline.run (the bounded refine loop, with the external
    LLM critique scores and the two collision-verification outcomes
    supplied as oracles),
  * RecallSystem three-path recall and fusion,
  * EdgeBuilder._build_idea_belongs_to_domain_edges.

Floats are modelled as rationals; Python dict/set state is modelled with
association lists and Finsets.  `text.lower().split()` is modelled with
Char.toLower and a whitespace split that drops empty fragments, which
agrees with Python on the ASCII/CJK corpus this project processes.
-/
import Mathlib

namespace Idea2Paper

/-! ## Text utilities and Jaccard similarity -/

/-- Python `str.lower()` (ASCII case folding; kernel-computable, unlike
`String.toLower`'s extern implementation). -/
def pyLower (s : String) : String := String.mk (s.data.map Char.toLower)

/-- Helper for `pySplit`: walk the character list, accumulating the
current (reversed) token and emitting it at whitespace boundaries. -/
def splitWSAux : List Char → List Char → List String
  | [], [] => []
  | [], cur => [String.mk cur.reverse]
  | c :: rest, cur =>
      if c.isWhitespace then
        (if cur = [] then splitWSAux rest []
         else String.mk cur.reverse :: splitWSAux rest [])
      else splitWSAux rest (c :: cur)

/-- Python `text.split()`: split on whitespace runs, dropping empties. -/
def pySplit (s : String) : List String := splitWSAux s.data []

/-- Python `set(text.lower().split())`. -/
def tokenSet (s : String) : Finset String :=
  (pySplit (pyLower s)).toFinset

/-- Source `RAGVerifier._compute_similarity` / `RecallSystem._compute_text_similarity`:
Jaccard similarity of whitespace token sets, `0.0` if either set is empty. -/
def compute_similarity (text1 text2 : String) : ℚ :=
  let tokens1 := tokenSet text1
  let tokens2 := tokenSet text2
  if tokens1 = ∅ ∨ tokens2 = ∅ then 0
  else ((tokens1 ∩ tokens2).card : ℚ) / ((tokens1 ∪ tokens2).card : ℚ)

theorem compute_similarity_nonneg (t1 t2 : String) : 0 ≤ compute_similarity t1 t2 := by
  simp only [compute_similarity]
  split
  · exact le_refl 0
  · positivity

/-- Jaccard similarity of a nonempty-token text with itself is 1. -/
theorem compute_similarity_self (t : String) (h : tokenSet t ≠ ∅) :
    compute_similarity t t = 1 := by
  simp only [compute_similarity]
  rw [if_neg (by simp [h])]
  rw [Finset.inter_self, Finset.union_self]
  have hcard : (tokenSet t).card ≠ 0 := by
    simpa [Finset.card_eq_zero, ← Finset.not_nonempty_iff_eq_empty] using h
  exact div_self (by exact_mod_cast hcard)

/-- Disjoint token vocabularies give similarity 0. -/
theorem compute_similarity_disjoint (t1 t2 : String)
    (h : tokenSet t1 ∩ tokenSet t2 = ∅) : compute_similarity t1 t2 = 0 := by
  simp only [compute_similarity]
  split
  · rfl
  · rw [h]
    simp

/-! ## Phase 4: RAGVerifier (idea2story_pipeline.py) -/

/-- The slice of a paper record read by `RAGVerifier.verify`:
`paper.get('skeleton', {}).get('method_story', '')`. -/
structure VPaper where
  method_story : String
deriving DecidableEq, Repr

/-- Source `PipelineConfig.COLLISION_THRESHOLD = 0.75`. -/
def COLLISION_THRESHOLD : ℚ := 75 / 100

/-- The `max_similarity` accumulator of `RAGVerifier.verify`: over the first
50 papers, papers with an empty method story are skipped, and a paper's
similarity enters the maximum only when it is `> 0.3`. -/
def rag_max_similarity (method_skeleton : String) (papers : List VPaper) : ℚ :=
  (papers.take 50).foldl
    (fun acc paper =>
      if paper.method_story = "" then acc
      else
        let similarity := compute_similarity method_skeleton paper.method_story
        if similarity > 3 / 10 then max acc similarity else acc)
    0

/-- Source `collision_detected = max_similarity > PipelineConfig.COLLISION_THRESHOLD`. -/
def rag_collision_detected (method_skeleton : String) (papers : List VPaper) : Bool :=
  decide (rag_max_similarity method_skeleton papers > COLLISION_THRESHOLD)

/-- What the maximum would be WITHOUT the `> 0.3` recording filter (a
specification-side definition used to compare against the filtered value). -/
def rag_true_max_similarity (method_skeleton : String) (papers : List VPaper) : ℚ :=
  (papers.take 50).foldl
    (fun acc paper =>
      if paper.method_story = "" then acc
      else max acc (compute_similarity method_skeleton paper.method_story))
    0

/-- Fold invariant relating the filtered and unfiltered running maxima. -/
theorem rag_fold_filter_eq (c : ℚ) (d : String) :
    ∀ (l : List VPaper) (b : ℚ),
      l.foldl
        (fun acc paper =>
          if paper.method_story = "" then acc
          else
            let s := compute_similarity d paper.method_story
            if s > c then max acc s else acc)
        (if b > c then b else 0) =
      (let t := l.foldl
          (fun acc paper =>
            if paper.method_story = "" then acc
            else max acc (compute_similarity d paper.method_story)) b
       if t > c then t else 0) := by
  intro l
  induction l with
  | nil => intro b; rfl
  | cons p rest ih =>
      intro b
      simp only [List.foldl_cons]
      by_cases hskip : p.method_story = ""
      · rw [if_pos hskip, if_pos hskip]
        exact ih b
      · rw [if_neg hskip, if_neg hskip]
        set s := compute_similarity d p.method_story with hs
        have hs0 : 0 ≤ s := compute_similarity_nonneg _ _
        have hkey : (if s > c then max (if b > c then b else 0) s else (if b > c then b else 0))
            = (if max b s > c then max b s else 0) := by
          by_cases h1 : s > c
          · rw [if_pos h1]
            by_cases h2 : b > c
            · rw [if_pos h2, if_pos (lt_max_of_lt_right h1)]
            · rw [if_neg h2]
              have hbs : max b s = s :=
                max_eq_right (le_trans (le_of_not_lt h2) (le_of_lt h1))
              rw [hbs, if_pos h1]
              exact max_eq_right hs0
          · rw [if_neg h1]
            by_cases h2 : b > c
            · have hbs : max b s = b := max_eq_left (le_trans (le_of_not_lt h1) (le_of_lt h2))
              rw [hbs]
            · have hms : ¬ (c < max b s) := by
                rw [lt_max_iff]
                push_neg
                exact ⟨le_of_not_lt h2, le_of_not_lt h1⟩
              rw [if_neg h2, if_neg hms]
        rw [hkey]
        exact ih (max b s)

/-- The recorded maximum equals the unfiltered maximum gated at 0.3. -/
theorem rag_max_similarity_eq (d : String) (papers : List VPaper) :
    rag_max_similarity d papers =
      (if rag_true_max_similarity d papers > 3 / 10
       then rag_true_max_similarity d papers else 0) := by
  have h := rag_fold_filter_eq (3 / 10) d (papers.take 50) 0
  have h0 : (if (0 : ℚ) > 3 / 10 then (0 : ℚ) else 0) = 0 := by norm_num
  rw [h0] at h
  exact h

/-- The collision decision agrees with the decision the unfiltered maximum
would give, because the collision threshold 0.75 exceeds the 0.3 filter. -/
theorem rag_collision_eq_unfiltered (d : String) (papers : List VPaper) :
    rag_collision_detected d papers =
      decide (rag_true_max_similarity d papers > COLLISION_THRESHOLD) := by
  unfold rag_collision_detected
  rw [rag_max_similarity_eq]
  by_cases h : rag_true_max_similarity d papers > 3 / 10
  · rw [if_pos h]
  · rw [if_neg h]
    have hle : ¬ rag_true_max_similarity d papers > COLLISION_THRESHOLD := by
      unfold COLLISION_THRESHOLD
      intro hgt
      exact h (lt_trans (by norm_num) hgt)
    simp only [COLLISION_THRESHOLD] at hle ⊢
    rw [decide_eq_decide]
    constructor
    · intro h0
      exact absurd h0 (by norm_num)
    · intro hgt
      exact absurd hgt hle

/-! ## Phase 3: MultiAgentCritic (idea2story_pipeline.py) -/

/-- Source `PipelineConfig.PASS_SCORE = 7.0`. -/
def PASS_SCORE : ℚ := 7

/-- Source `PipelineConfig.MAX_REFINE_ITERATIONS = 3`. -/
def MAX_REFINE_ITERATIONS : ℕ := 3

/-- One entry of `critic_result['reviews']` (the reviewer name and the
free-text feedback are print/prompt-only and carry no control flow). -/
structure Review where
  role : String
  score : ℚ
deriving DecidableEq, Repr

/-- The fixed reviewer roles of `MultiAgentCritic.__init__`, in order. -/
def reviewerRoles : List String := ["Methodology", "Novelty", "Storyteller"]

/-- Source `avg_score = sum(scores) / len(scores)`. -/
def critic_avg_score (scores : List ℚ) : ℚ := scores.sum / (scores.length : ℚ)

/-- Source `passed = avg_score >= PipelineConfig.PASS_SCORE` (boundary inclusive). -/
def critic_passed (scores : List ℚ) : Bool := decide (critic_avg_score scores ≥ PASS_SCORE)

/-- Source `MultiAgentCritic._diagnose_issue`: the reviewer with the lowest score
(first occurrence) determines the `main_issue` tag. -/
def diagnose_issue (reviews : List Review) (scores : List ℚ) : String × List String :=
  match scores.min? with
  | none => ("", [])
  | some m =>
    let minIdx := scores.indexOf m
    let role := ((reviews.get? minIdx).getD ⟨"", 0⟩).role
    if role = "Novelty" then ("novelty", ["注入冷门 Trick 提升新颖性", "寻找长尾 Pattern"])
    else if role = "Methodology" then ("stability", ["注入成熟稳健的 Trick", "增加鲁棒性验证"])
    else if role = "Storyteller" then ("interpretability", ["增加可视化分析", "补充 Case Study"])
    else ("domain_mismatch", ["调整领域适配方法", "增加预处理步骤"])

/-- The reduction performed by `MultiAgentCritic.review` once the three
per-reviewer scores are back from the external LLM calls. -/
structure CriticResult where
  pass : Bool
  avg_score : ℚ
  reviews : List Review
  main_issue : String
  suggestions : List String
deriving DecidableEq, Repr

instance : Inhabited CriticResult := ⟨⟨false, 0, [], "", []⟩⟩

/-- Source `MultiAgentCritic.review`, with the three reviewer scores supplied by
the caller (they come from `_single_review` LLM calls). -/
def MultiAgentCritic.review (scores : List ℚ) : CriticResult :=
  let reviews := (reviewerRoles.zip scores).map (fun p => Review.mk p.1 p.2)
  let avg := critic_avg_score scores
  let passed := critic_passed scores
  let diag := diagnose_issue reviews scores
  { pass := passed, avg_score := avg, reviews := reviews,
    main_issue := diag.1, suggestions := diag.2 }

/-! ## Pattern records and sorting helpers -/

/-- One entry of a pattern's `top_tricks` list as read by the pipeline
(`trick.get('name', '')`; the usage percentage is prompt-only). -/
structure TrickInfo where
  name : String
deriving DecidableEq, Repr

/-- One entry of `skeleton_examples` as read by the refinement engine
(`ex.get('method_story', '')`; title and problem framing are prompt-only). -/
structure SkeletonExample where
  method_story : String
deriving DecidableEq, Repr

/-- The fields of a `pattern_info` dict that the pipeline logic reads.
Optional `cluster_size` models `pattern_info.get('cluster_size', default)`
with call-site-specific defaults. -/
structure PatternInfo where
  name : String
  summary : String
  cluster_size : Option ℕ
  skeleton_examples : List SkeletonExample
  top_tricks : List TrickInfo
deriving DecidableEq, Repr

instance : Inhabited PatternInfo := ⟨⟨"", "", none, [], []⟩⟩

/-- Source `pattern_info.get('cluster_size', d)`. -/
def PatternInfo.clusterD (p : PatternInfo) (d : ℕ) : ℕ := p.cluster_size.getD d

/-- A recalled-pattern entry `(pattern_id, pattern_info, score)`. -/
abbrev RecalledPattern := String × PatternInfo × ℚ

/-- Python `list.sort(key=...)` ascending: a stable insertion sort on a key. -/
def sortAscBy {α : Type} {β : Type} [LinearOrder β] (key : α → β) (l : List α) : List α :=
  List.insertionSort (fun a b => key a ≤ key b) l

/-- Python `list.sort(key=..., reverse=True)` / `sorted(..., reverse=True)`:
a stable insertion sort, descending on a key. -/
def sortDescBy {α : Type} {β : Type} [LinearOrder β] (key : α → β) (l : List α) : List α :=
  List.insertionSort (fun a b => key b ≤ key a) l

instance sortAscTotal {α β : Type} [LinearOrder β] (key : α → β) :
    IsTotal α (fun a b => key a ≤ key b) := ⟨fun a b => le_total (key a) (key b)⟩

instance sortAscTrans {α β : Type} [LinearOrder β] (key : α → β) :
    IsTrans α (fun a b => key a ≤ key b) := ⟨fun _ _ _ h1 h2 => le_trans h1 h2⟩

instance sortDescTotal {α β : Type} [LinearOrder β] (key : α → β) :
    IsTotal α (fun a b => key b ≤ key a) := ⟨fun a b => le_total (key b) (key a)⟩

instance sortDescTrans {α β : Type} [LinearOrder β] (key : α → β) :
    IsTrans α (fun a b => key b ≤ key a) := ⟨fun _ _ _ h1 h2 => le_trans h2 h1⟩

theorem sortAscBy_perm {α β : Type} [LinearOrder β] (key : α → β) (l : List α) :
    List.Perm (sortAscBy key l) l := List.perm_insertionSort _ l

theorem sortDescBy_perm {α β : Type} [LinearOrder β] (key : α → β) (l : List α) :
    List.Perm (sortDescBy key l) l := List.perm_insertionSort _ l

theorem sortDescBy_sorted {α β : Type} [LinearOrder β] (key : α → β) (l : List α) :
    (sortDescBy key l).Sorted (fun a b => key b ≤ key a) :=
  List.sorted_insertionSort _ l

/-! ## Phase 1: PatternSelector (idea2story_pipeline.py) -/

/-- Source `PipelineConfig.INNOVATIVE_CLUSTER_SIZE_THRESHOLD = 10`. -/
def INNOVATIVE_CLUSTER_SIZE_THRESHOLD : ℕ := 10

/-- Source `PatternSelector._select_conservative`: the top-ranked candidate. -/
def PatternSelector.select_conservative (recalled : List RecalledPattern) :
    Option (String × PatternInfo) :=
  (recalled.head?).map (fun t => (t.1, t.2.1))

/-- Source `PatternSelector._select_innovative`: the first candidate outside
`exclude` with cluster size below the niche threshold, else the smallest-
cluster candidate outside `exclude`. -/
def PatternSelector.select_innovative (recalled : List RecalledPattern)
    (exclude : List String) : Option (String × PatternInfo) :=
  let candidates := recalled.filter
    (fun t => t.1 ∉ exclude ∧ t.2.1.clusterD 999 < INNOVATIVE_CLUSTER_SIZE_THRESHOLD)
  let candidates2 :=
    if candidates = [] then
      sortAscBy (fun t : RecalledPattern => t.2.1.clusterD 999)
        (recalled.filter (fun t => t.1 ∉ exclude))
    else candidates
  (candidates2.head?).map (fun t => (t.1, t.2.1))

/-- Source `PatternSelector._select_cross_domain`: the next remaining candidate by
rank; the exclusion list may contain `None` placeholders as in the source. -/
def PatternSelector.select_cross_domain (recalled : List RecalledPattern)
    (exclude : List (Option String)) : Option (String × PatternInfo) :=
  ((recalled.filter (fun t => some t.1 ∉ exclude)).head?).map (fun t => (t.1, t.2.1))

/-- The mapping returned by `PatternSelector.select`: three optional slots,
a key being present exactly when its slot is `some`. -/
structure Selection where
  conservative : Option (String × PatternInfo)
  innovative : Option (String × PatternInfo)
  cross_domain : Option (String × PatternInfo)
deriving DecidableEq, Repr

/-- Source `PatternSelector.select`. -/
def PatternSelector.select (recalled : List RecalledPattern) : Selection :=
  let conservative := PatternSelector.select_conservative recalled
  let innovative := PatternSelector.select_innovative recalled
    (match conservative with
     | some c => [c.1]
     | none => [])
  let cross_domain := PatternSelector.select_cross_domain recalled
    [conservative.map Prod.fst, innovative.map Prod.fst]
  { conservative := conservative, innovative := innovative, cross_domain := cross_domain }

/-- Number of named slots present in the returned mapping. -/
def Selection.size (s : Selection) : ℕ :=
  (if s.conservative.isSome then 1 else 0) + (if s.innovative.isSome then 1 else 0) +
    (if s.cross_domain.isSome then 1 else 0)

/-- The pattern ids of the present slots, in slot order. -/
def Selection.slotIds (s : Selection) : List String :=
  (s.conservative.map Prod.fst).toList ++ (s.innovative.map Prod.fst).toList ++
    (s.cross_domain.map Prod.fst).toList

/-- A selected `(pattern_id, pattern_info)` pair comes from the head of a
candidate list and keeps its id. -/
theorem headMap_mem {l : List RecalledPattern} {pid : String} {pinfo : PatternInfo}
    (h : (l.head?).map (fun t : RecalledPattern => (t.1, t.2.1)) = some (pid, pinfo)) :
    ∃ t ∈ l, t.1 = pid := by
  cases hl : l.head? with
  | none => rw [hl] at h; exact absurd h (by simp)
  | some t =>
      rw [hl] at h
      have h2 : t.1 = pid := congrArg (fun o => (o.getD (pid, pinfo)).1) h
      exact ⟨t, List.mem_of_mem_head? (by rw [hl]; rfl), h2⟩

/-- Whatever `_select_innovative` returns is outside its exclusion list. -/
theorem select_innovative_not_excluded (recalled : List RecalledPattern)
    (exclude : List String) (pid : String) (pinfo : PatternInfo)
    (h : PatternSelector.select_innovative recalled exclude = some (pid, pinfo)) :
    pid ∉ exclude := by
  unfold PatternSelector.select_innovative at h
  obtain ⟨t, hmem, hpid⟩ := headMap_mem h
  subst hpid
  by_cases hc : recalled.filter
      (fun t => decide (t.1 ∉ exclude ∧ t.2.1.clusterD 999 < INNOVATIVE_CLUSTER_SIZE_THRESHOLD)) = []
  · rw [if_pos hc] at hmem
    have := (sortAscBy_perm (fun t : RecalledPattern => t.2.1.clusterD 999) _).mem_iff.mp hmem
    simp only [List.mem_filter, decide_eq_true_eq] at this
    exact this.2
  · rw [if_neg hc] at hmem
    simp only [List.mem_filter, decide_eq_true_eq] at hmem
    exact hmem.2.1

/-- Whatever `_select_cross_domain` returns is outside its exclusion list. -/
theorem select_cross_domain_not_excluded (recalled : List RecalledPattern)
    (exclude : List (Option String)) (pid : String) (pinfo : PatternInfo)
    (h : PatternSelector.select_cross_domain recalled exclude = some (pid, pinfo)) :
    some pid ∉ exclude := by
  unfold PatternSelector.select_cross_domain at h
  obtain ⟨t, hmem, hpid⟩ := headMap_mem h
  subst hpid
  simp only [List.mem_filter, decide_eq_true_eq] at hmem
  exact hmem.2

/-- Case analysis core for slot-id distinctness. -/
theorem slotIds_nodup_aux (recalled : List RecalledPattern)
    (c i x : Option (String × PatternInfo))
    (hi : PatternSelector.select_innovative recalled
      (match c with
       | some c0 => [c0.1]
       | none => []) = i)
    (hx : PatternSelector.select_cross_domain recalled
      [c.map Prod.fst, i.map Prod.fst] = x) :
    ((c.map Prod.fst).toList ++ (i.map Prod.fst).toList ++ (x.map Prod.fst).toList).Nodup := by
  rcases c with _ | ⟨cid, cinfo⟩ <;> rcases i with _ | ⟨iid, iinfo⟩ <;>
    rcases x with _ | ⟨xid, xinfo⟩
  · simp
  · simp
  · simp
  · have h2 : xid ≠ iid := fun hq =>
      (select_cross_domain_not_excluded recalled _ xid xinfo hx) (by simp [hq])
    simp [h2.symm]
  · simp
  · have h1 : xid ≠ cid := fun hq =>
      (select_cross_domain_not_excluded recalled _ xid xinfo hx) (by simp [hq])
    simp [h1.symm]
  · have h3 : iid ≠ cid := fun hq =>
      (select_innovative_not_excluded recalled _ iid iinfo hi) (by simp [hq])
    simp [h3.symm]
  · have h3 : iid ≠ cid := fun hq =>
      (select_innovative_not_excluded recalled _ iid iinfo hi) (by simp [hq])
    have h1 : xid ≠ cid := fun hq =>
      (select_cross_domain_not_excluded recalled _ xid xinfo hx) (by simp [hq])
    have h2 : xid ≠ iid := fun hq =>
      (select_cross_domain_not_excluded recalled _ xid xinfo hx) (by simp [hq])
    simp [h3.symm, h1.symm, h2.symm]

/-- The ids present in a selection are pairwise distinct. -/
theorem select_slotIds_nodup (recalled : List RecalledPattern) :
    ((PatternSelector.select recalled).slotIds).Nodup :=
  slotIds_nodup_aux recalled
    (PatternSelector.select_conservative recalled) _ _ rfl rfl

/-! ## Phase 3.5: RefinementEngine (idea2story_pipeline.py) -/

/-- Source `PipelineConfig.TAIL_INJECTION_RANK_RANGE = (4, 9)` — ranks 5-10. -/
def TAIL_INJECTION_RANK_RANGE : ℕ × ℕ := (4, 9)

/-- Source `PipelineConfig.HEAD_INJECTION_RANK_RANGE = (0, 2)` — ranks 1-3. -/
def HEAD_INJECTION_RANK_RANGE : ℕ × ℕ := (0, 2)

/-- Source `PipelineConfig.HEAD_INJECTION_CLUSTER_THRESHOLD = 15`. -/
def HEAD_INJECTION_CLUSTER_THRESHOLD : ℕ := 15

/-- Source `RefinementEngine.GENERIC_TRICKS`. -/
def GENERIC_TRICKS : List String :=
  ["消融实验", "多数据集验证", "对比实验", "Case Study", "案例分析",
   "可视化", "Attention 可视化", "参数敏感性分析", "鲁棒性测试",
   "现有方法局限性", "逻辑递进", "叙事结构", "性能提升", "实验验证"]

/-- Python `needle in hay` on strings. -/
def strContains (hay needle : String) : Bool := decide (List.IsInfix needle.data hay.data)

/-- Source `any(gt in trick_name for gt in GENERIC_TRICKS)`. -/
def isGenericTrick (trick_name : String) : Bool :=
  GENERIC_TRICKS.any (fun gt => strContains trick_name gt)

/-- The first two non-generic names among the first five `top_tricks`. -/
def techTricks (pinfo : PatternInfo) : List String :=
  (((pinfo.top_tricks.take 5).map TrickInfo.name).filter
    (fun n => ¬ isGenericTrick n)).take 2

/-- Python join with separator " + ". -/
def joinPlus (l : List String) : String := String.intercalate " + " l

/-- The method-insight snippets extracted in `_inject_tail_tricks`:
the first two skeleton examples with nonempty method stories, truncated
to 150 characters. -/
def tailMethodInsights (pinfo : PatternInfo) : List String :=
  (pinfo.skeleton_examples.take 2).filterMap
    (fun ex => if ex.method_story ≠ "" then some (ex.method_story.take 150) else none)

/-- The injection instructions built by `_inject_tail_tricks` for a chosen
pattern. -/
def tailInstructions (pinfo : PatternInfo) : List String :=
  let insights := (tailMethodInsights pinfo).take 1
  let tricks := techTricks pinfo
  let instructions :=
    insights.map (fun insight =>
      "【方法论重构】参考 " ++ pinfo.name ++ " 的核心技术路线：" ++ insight) ++
    (if tricks ≠ [] then
      ["【核心技术】融合 " ++ pinfo.name ++ " 的关键技术点：" ++ joinPlus tricks]
     else [])
  if instructions = [] then
    ["融合 " ++ pinfo.name ++ " 的核心思路，重构现有方法论"]
  else instructions

/-- Stability-keyword filter of `_inject_head_tricks`. -/
def stabilityKeywords : List String := ["稳定", "鲁棒", "一致", "对抗", "正则", "混合"]

/-- The stability-method snippets extracted in `_inject_head_tricks`. -/
def headStabilityMethods (pinfo : PatternInfo) : List String :=
  let preferred := ((pinfo.skeleton_examples.take 3).filterMap
    (fun ex =>
      if ex.method_story ≠ "" ∧
          stabilityKeywords.any (fun kw => strContains ex.method_story.toLower kw) then
        some (ex.method_story.take 150)
      else none)).take 2
  if preferred = [] then
    (pinfo.skeleton_examples.take 2).filterMap
      (fun ex => if ex.method_story ≠ "" then some (ex.method_story.take 150) else none)
  else preferred

/-- The injection instructions built by `_inject_head_tricks` for a chosen
pattern. -/
def headInstructions (pinfo : PatternInfo) : List String :=
  let methods := (headStabilityMethods pinfo).take 1
  let tricks := techTricks pinfo
  let instructions :=
    methods.map (fun m =>
      "【稳定性方法论】参考 " ++ pinfo.name ++ " 的鲁棒性设计：" ++ m) ++
    (if tricks ≠ [] then
      ["【稳定性技术】融合 " ++ pinfo.name ++ " 的成熟技术：" ++ joinPlus tricks]
     else [])
  if instructions = [] then
    ["融合 " ++ pinfo.name ++ " 的成熟方法，增强技术稳定性"]
  else instructions

/-- The generic fallback operators returned by `_inject_tail_tricks` when the
recall list is exhausted. -/
def tailGenericFallback : List String :=
  ["引入对比学习负采样优化策略", "设计多尺度特征融合机制", "添加自适应动态权重分配"]

/-- Pattern chosen by `_inject_tail_tricks`: unused rank-window (5-10)
candidates with cluster size below the niche threshold, else all unused
candidates; both sorted ascending by cluster size and the head taken. -/
def injectTailChoose (recalled : List RecalledPattern) (used : Finset String) :
    Option (String × PatternInfo × ℕ) :=
  let window := (recalled.drop TAIL_INJECTION_RANK_RANGE.1).take
    (TAIL_INJECTION_RANK_RANGE.2 + 1 - TAIL_INJECTION_RANK_RANGE.1)
  let candidates := window.filterMap (fun t =>
    if t.1 ∈ used then none
    else if t.2.1.clusterD 999 < INNOVATIVE_CLUSTER_SIZE_THRESHOLD then
      some (t.1, t.2.1, t.2.1.clusterD 999)
    else none)
  let candidates :=
    if candidates = [] then
      sortAscBy (fun t : String × PatternInfo × ℕ => t.2.2)
        (recalled.filterMap (fun t =>
          if t.1 ∈ used then none else some (t.1, t.2.1, t.2.1.clusterD 999)))
    else candidates
  (sortAscBy (fun t : String × PatternInfo × ℕ => t.2.2) candidates).head?

/-- Source `RefinementEngine._inject_tail_tricks`: returns the updated used-pattern
set and the injected instruction list. -/
def inject_tail_tricks (recalled : List RecalledPattern) (used : Finset String) :
    Finset String × List String :=
  match injectTailChoose recalled used with
  | none => (used, tailGenericFallback)
  | some (pid, pinfo, _) => (insert pid used, tailInstructions pinfo)

/-- Pattern chosen by `_inject_head_tricks`: unused rank-window (1-3)
candidates with cluster size above the mature threshold (in rank order),
else the unused first-three sorted descending by cluster size, else the
unused ranks 4-6 sorted descending by cluster size. -/
def injectHeadChoose (recalled : List RecalledPattern) (used : Finset String) :
    Option (String × PatternInfo × ℕ) :=
  let window := (recalled.drop HEAD_INJECTION_RANK_RANGE.1).take
    (HEAD_INJECTION_RANK_RANGE.2 + 1 - HEAD_INJECTION_RANK_RANGE.1)
  let candidates := window.filterMap (fun t =>
    if t.1 ∈ used then none
    else if t.2.1.clusterD 0 > HEAD_INJECTION_CLUSTER_THRESHOLD then
      some (t.1, t.2.1, t.2.1.clusterD 0)
    else none)
  let candidates :=
    if candidates = [] then
      sortDescBy (fun t : String × PatternInfo × ℕ => t.2.2)
        ((recalled.take 3).filterMap (fun t =>
          if t.1 ∈ used then none else some (t.1, t.2.1, t.2.1.clusterD 0)))
    else candidates
  let candidates :=
    if candidates = [] then
      sortDescBy (fun t : String × PatternInfo × ℕ => t.2.2)
        (((recalled.drop 3).take 3).filterMap (fun t =>
          if t.1 ∈ used then none else some (t.1, t.2.1, t.2.1.clusterD 0)))
    else candidates
  candidates.head?

/-- Source `RefinementEngine._inject_head_tricks`. -/
def inject_head_tricks (recalled : List RecalledPattern) (used : Finset String) :
    Finset String × List String :=
  match injectHeadChoose recalled used with
  | none => (used, [])
  | some (pid, pinfo, _) => (insert pid used, headInstructions pinfo)

/-- Source `RefinementEngine._inject_explanation_tricks` (fixed list, no pattern). -/
def inject_explanation_tricks : List String :=
  ["增加 Attention 权重可视化分析", "设计代表性样本的 Case Study", "添加消融实验说明各组件贡献"]

/-- Source `RefinementEngine._inject_domain_tricks` (fixed list, no pattern). -/
def inject_domain_tricks : List String :=
  ["增加领域特定的数据预处理步骤", "设计领域相关的特征提取方法", "调整评估指标以适配目标领域"]

/-- Source `RefinementEngine.refine`: dispatch on the diagnosed main issue. -/
def RefinementEngine.refine (recalled : List RecalledPattern) (used : Finset String)
    (main_issue : String) : Finset String × List String :=
  if main_issue = "novelty" then inject_tail_tricks recalled used
  else if main_issue = "stability" then inject_head_tricks recalled used
  else if main_issue = "interpretability" then (used, inject_explanation_tricks)
  else if main_issue = "domain_mismatch" then (used, inject_domain_tricks)
  else (used, [])

/-- Generic step: a filter-mapped candidate whose guard enforces freshness
is outside the used set. -/
theorem unused_of_filterMap_guard {l : List RecalledPattern} {used : Finset String}
    {g : RecalledPattern → Option (String × PatternInfo × ℕ)}
    (hg : ∀ t b, g t = some b → b.1 = t.1 ∧ t.1 ∉ used)
    {b : String × PatternInfo × ℕ} (hb : b ∈ l.filterMap g) : b.1 ∉ used := by
  obtain ⟨t, _, hf⟩ := List.mem_filterMap.mp hb
  obtain ⟨he, hu⟩ := hg t b hf
  rw [he]; exact hu

theorem guard_unused_cond {used : Finset String} (p : RecalledPattern → Prop)
    [DecidablePred p] (v : RecalledPattern → ℕ) :
    ∀ (t : RecalledPattern) (b : String × PatternInfo × ℕ),
    (if t.1 ∈ used then none
     else if p t then some (t.1, t.2.1, v t) else none) = some b →
    b.1 = t.1 ∧ t.1 ∉ used := by
  intro t b h
  by_cases hu : t.1 ∈ used
  · rw [if_pos hu] at h; exact absurd h (by simp)
  · refine ⟨?_, hu⟩
    rw [if_neg hu] at h
    by_cases hp : p t
    · rw [if_pos hp] at h
      exact (congrArg (fun o => (o.getD b).1) h).symm
    · rw [if_neg hp] at h; exact absurd h (by simp)

theorem guard_unused_plain {used : Finset String} (d : ℕ) :
    ∀ (t : RecalledPattern) (b : String × PatternInfo × ℕ),
    (if t.1 ∈ used then none else some (t.1, t.2.1, t.2.1.clusterD d)) = some b →
    b.1 = t.1 ∧ t.1 ∉ used := by
  intro t b h
  by_cases hu : t.1 ∈ used
  · rw [if_pos hu] at h; exact absurd h (by simp)
  · rw [if_neg hu] at h
    exact ⟨(congrArg (fun o => (o.getD b).1) h).symm, hu⟩

/-- A pattern chosen by tail injection is never one already used. -/
theorem injectTailChoose_not_used (recalled : List RecalledPattern) (used : Finset String)
    (pid : String) (pinfo : PatternInfo) (csz : ℕ)
    (h : injectTailChoose recalled used = some (pid, pinfo, csz)) : pid ∉ used := by
  unfold injectTailChoose at h
  have hmem := List.mem_of_mem_head? h
  have hmem2 := (sortAscBy_perm (fun t : String × PatternInfo × ℕ => t.2.2) _).mem_iff.mp hmem
  by_cases hempty : ((recalled.drop TAIL_INJECTION_RANK_RANGE.1).take
      (TAIL_INJECTION_RANK_RANGE.2 + 1 - TAIL_INJECTION_RANK_RANGE.1)).filterMap
      (fun t => if t.1 ∈ used then none
        else if t.2.1.clusterD 999 < INNOVATIVE_CLUSTER_SIZE_THRESHOLD then
          some (t.1, t.2.1, t.2.1.clusterD 999) else none) = []
  · rw [if_pos hempty] at hmem2
    have hmem3 := (sortAscBy_perm (fun t : String × PatternInfo × ℕ => t.2.2) _).mem_iff.mp hmem2
    exact unused_of_filterMap_guard (guard_unused_plain 999) hmem3
  · rw [if_neg hempty] at hmem2
    exact unused_of_filterMap_guard
      (guard_unused_cond
        (fun t => t.2.1.clusterD 999 < INNOVATIVE_CLUSTER_SIZE_THRESHOLD)
        (fun t => t.2.1.clusterD 999)) hmem2

/-- A pattern chosen by head injection is never one already used. -/
theorem injectHeadChoose_not_used (recalled : List RecalledPattern) (used : Finset String)
    (pid : String) (pinfo : PatternInfo) (csz : ℕ)
    (h : injectHeadChoose recalled used = some (pid, pinfo, csz)) : pid ∉ used := by
  unfold injectHeadChoose at h
  have hmem := List.mem_of_mem_head? h
  by_cases h1 : ((recalled.drop HEAD_INJECTION_RANK_RANGE.1).take
      (HEAD_INJECTION_RANK_RANGE.2 + 1 - HEAD_INJECTION_RANK_RANGE.1)).filterMap
      (fun t => if t.1 ∈ used then none
        else if t.2.1.clusterD 0 > HEAD_INJECTION_CLUSTER_THRESHOLD then
          some (t.1, t.2.1, t.2.1.clusterD 0) else none) = []
  · rw [if_pos h1] at hmem
    by_cases h2 : sortDescBy (fun t : String × PatternInfo × ℕ => t.2.2)
        ((recalled.take 3).filterMap
          (fun t => if t.1 ∈ used then none else some (t.1, t.2.1, t.2.1.clusterD 0))) = []
    · rw [if_pos h2] at hmem
      have hmem3 := (sortDescBy_perm (fun t : String × PatternInfo × ℕ => t.2.2) _).mem_iff.mp hmem
      exact unused_of_filterMap_guard (guard_unused_plain 0) hmem3
    · rw [if_neg h2] at hmem
      have hmem3 := (sortDescBy_perm (fun t : String × PatternInfo × ℕ => t.2.2) _).mem_iff.mp hmem
      exact unused_of_filterMap_guard (guard_unused_plain 0) hmem3
  · rw [if_neg h1] at hmem
    have : ¬ ((recalled.drop HEAD_INJECTION_RANK_RANGE.1).take
        (HEAD_INJECTION_RANK_RANGE.2 + 1 - HEAD_INJECTION_RANK_RANGE.1)).filterMap
        (fun t => if t.1 ∈ used then none
          else if t.2.1.clusterD 0 > HEAD_INJECTION_CLUSTER_THRESHOLD then
            some (t.1, t.2.1, t.2.1.clusterD 0) else none) = [] := h1
    rw [if_neg this] at hmem
    exact unused_of_filterMap_guard
      (guard_unused_cond
        (fun t => t.2.1.clusterD 0 > HEAD_INJECTION_CLUSTER_THRESHOLD)
        (fun t => t.2.1.clusterD 0)) hmem

/-- The two pattern-based injection strategies of the refinement engine. -/
inductive InjectKind
  | tail
  | head
deriving DecidableEq, Repr

/-- Chosen pattern id of one injection call, `none` when the strategy
falls back to generic (non-pattern) tricks. -/
def injectChoose (recalled : List RecalledPattern) (used : Finset String) :
    InjectKind → Option (String × PatternInfo × ℕ)
  | .tail => injectTailChoose recalled used
  | .head => injectHeadChoose recalled used

theorem injectChoose_not_used (recalled : List RecalledPattern) (used : Finset String)
    (k : InjectKind) (pid : String) (pinfo : PatternInfo) (csz : ℕ)
    (h : injectChoose recalled used k = some (pid, pinfo, csz)) : pid ∉ used := by
  cases k with
  | tail => exact injectTailChoose_not_used recalled used pid pinfo csz h
  | head => exact injectHeadChoose_not_used recalled used pid pinfo csz h

/-- One injection call of a session: the used set grows by the chosen
pattern id on success, and the success counter increments. -/
def injectSessionStep (recalled : List RecalledPattern) (st : Finset String × ℕ)
    (k : InjectKind) : Finset String × ℕ :=
  match injectChoose recalled st.1 k with
  | some (pid, _, _) => (insert pid st.1, st.2 + 1)
  | none => st

/-- A session: the exclusion set starts empty and each injection decision
mutates it once. -/
def runInjectSession (recalled : List RecalledPattern) (ops : List InjectKind) :
    Finset String × ℕ :=
  ops.foldl (injectSessionStep recalled) (∅, 0)

theorem injectSession_card_invariant (recalled : List RecalledPattern) :
    ∀ (ops : List InjectKind) (st : Finset String × ℕ),
      st.1.card = st.2 → (ops.foldl (injectSessionStep recalled) st).1.card =
        (ops.foldl (injectSessionStep recalled) st).2 := by
  intro ops
  induction ops with
  | nil => intro st h; exact h
  | cons k rest ih =>
      intro st h
      rw [List.foldl_cons]
      apply ih
      unfold injectSessionStep
      cases hch : injectChoose recalled st.1 k with
      | none => exact h
      | some b =>
          obtain ⟨pid, pinfo, csz⟩ := b
          have hnotin := injectChoose_not_used recalled st.1 k pid pinfo csz hch
          simp only [Finset.card_insert_of_not_mem hnotin, h]

/-! ## Orchestrator: Idea2StoryPipeline.run (idea2story_pipeline.py)

The external effects are abstracted as oracles: `scoresOracle i` gives the
three reviewer scores of the (i+1)-th critique call, and the two Booleans
give the outcome of the collision verification before and after the single
pivot attempt (the drafts themselves are opaque LLM text and carry no
control flow inside `run`). -/

/-- Source `next((r['score'] for r in reviews if r['role'] == 'Novelty'), 0)`. -/
def noveltyScoreOf (reviews : List Review) : ℚ :=
  match reviews.find? (fun r => r.role = "Novelty") with
  | some r => r.score
  | none => 0

/-- The trick accumulation loop: `for trick in new_tricks: if trick not in
injected_tricks: injected_tricks.append(trick)`. -/
def accumTricks (injected : List String) (new : List String) : List String :=
  new.foldl (fun acc t => if t ∈ acc then acc else acc ++ [t]) injected

/-- One draft-generation call made inside the refine loop, as recorded for
analysis: which pattern, whether the stall-detection switch had fired this
round, and whether the call was the incremental editor call
(`previous_story`/`review_feedback` passed) or a from-scratch generation. -/
structure GenCall where
  patternId : String
  switched : Bool
  editorMode : Bool
  newTricksOnly : List String
  injectedTricks : List String
deriving DecidableEq, Repr

/-- Loop state of `Idea2StoryPipeline.run`. -/
structure LoopSt where
  iterations : ℕ
  patternId : String
  patternInfo : PatternInfo
  injected : List String
  used : Finset String
  history : List CriticResult
  gens : List GenCall

/-- One iteration of the `while iterations < MAX_REFINE_ITERATIONS` loop;
returns the new state and whether the critique passed (loop break). -/
def runRound (recalled : List RecalledPattern) (scores : List ℚ) (st : LoopSt) :
    LoopSt × Bool :=
  let it := st.iterations + 1
  let c := MultiAgentCritic.review scores
  let hist := st.history ++ [c]
  if c.pass then
    ({ st with iterations := it, history := hist }, true)
  else
    let main_issue := c.main_issue
    let switchState :=
      if main_issue = "novelty" then
        let curr := noveltyScoreOf c.reviews
        let prev :=
          if hist.length ≥ 2 then
            noveltyScoreOf ((hist.getD (hist.length - 2) default).reviews)
          else 0
        if it ≥ 2 ∧ curr ≤ prev + 1 / 2 then
          let all_unused := sortAscBy (fun t : String × PatternInfo => t.2.clusterD 999)
            ((recalled.filter (fun t => t.1 ∉ st.used)).map (fun t => (t.1, t.2.1)))
          match all_unused.head? with
          | some (pid, pinfo) => (pid, pinfo, ([] : List String), true)
          | none => (st.patternId, st.patternInfo, st.injected, false)
        else (st.patternId, st.patternInfo, st.injected, false)
      else (st.patternId, st.patternInfo, st.injected, false)
    let pid := switchState.1
    let pinfo := switchState.2.1
    let injected0 := switchState.2.2.1
    let switched := switchState.2.2.2
    let refineResult := RefinementEngine.refine recalled st.used main_issue
    let used2 := refineResult.1
    let new_tricks := refineResult.2
    let injected2 := accumTricks injected0 new_tricks
    let is_pattern_switch :=
      decide (it ≥ 2) && decide (main_issue = "novelty") &&
        decide (injected2 = []) && decide (new_tricks ≠ [])
    let gen : GenCall :=
      { patternId := pid, switched := switched, editorMode := !is_pattern_switch,
        newTricksOnly := new_tricks, injectedTricks := injected2 }
    ({ iterations := it, patternId := pid, patternInfo := pinfo, injected := injected2,
       used := used2, history := hist, gens := st.gens ++ [gen] }, false)

/-- The bounded refine loop, `fuel = MAX_REFINE_ITERATIONS - iterations`. -/
def runLoop (recalled : List RecalledPattern) (scoresOracle : ℕ → List ℚ) :
    ℕ → LoopSt → LoopSt
  | 0, st => st
  | fuel + 1, st =>
      let step := runRound recalled (scoresOracle st.iterations) st
      if step.2 then step.1 else runLoop recalled scoresOracle fuel step.1

/-- The result record of `Idea2StoryPipeline.run`. `noPattern` marks the
early `{'success': False}` return when the selection is empty. -/
structure RunResult where
  success : Bool
  noPattern : Bool
  iterations : ℕ
  criticCalls : ℕ
  reviewHistory : List CriticResult
  gens : List GenCall
  pivoted : Bool
deriving Repr

/-- Source `Idea2StoryPipeline.run`: selection, initial generation, the bounded
critique/refine loop, then collision verification with at most one pivot.
`collision1`/`collision2` are the collision outcomes of the first and (if
pivoted) second verification of the opaque drafts. -/
def Idea2StoryPipeline.run (recalled : List RecalledPattern) (scoresOracle : ℕ → List ℚ)
    (collision1 collision2 : Bool) : RunResult :=
  match (PatternSelector.select recalled).conservative with
  | none =>
      { success := false, noPattern := true, iterations := 0, criticCalls := 0,
        reviewHistory := [], gens := [], pivoted := false }
  | some (pid, pinfo) =>
      let st0 : LoopSt :=
        { iterations := 0, patternId := pid, patternInfo := pinfo, injected := [],
          used := ∅, history := [], gens := [] }
      let st := runLoop recalled scoresOracle MAX_REFINE_ITERATIONS st0
      let finalCollision := if collision1 then collision2 else false
      { success := !finalCollision, noPattern := false, iterations := st.iterations,
        criticCalls := st.history.length, reviewHistory := st.history, gens := st.gens,
        pivoted := collision1 }

/-- The final console status of the pipeline: `需人工审核` (needs manual
review) is printed exactly when `success` is false. -/
def needs_manual_review (r : RunResult) : Bool := !r.success

/-- Budget exhaustion without a passing critique, as observable from the
returned record: the loop ran all `MAX_REFINE_ITERATIONS` rounds and the
last critique still failed. -/
def budget_exhausted_without_pass (r : RunResult) : Bool :=
  decide (r.criticCalls = MAX_REFINE_ITERATIONS) &&
    !((r.reviewHistory.getLastD default).pass)

/-- Each loop round appends exactly one critique result. -/
theorem runLoop_history_le (recalled : List RecalledPattern) (scoresOracle : ℕ → List ℚ) :
    ∀ (fuel : ℕ) (st : LoopSt),
      (runLoop recalled scoresOracle fuel st).history.length ≤ st.history.length + fuel := by
  intro fuel
  induction fuel with
  | zero => intro st; exact le_of_eq rfl
  | succ n ih =>
      intro st
      unfold runLoop
      by_cases hp : (runRound recalled (scoresOracle st.iterations) st).2
      · rw [if_pos hp]
        have : (runRound recalled (scoresOracle st.iterations) st).1.history.length ≤
            st.history.length + 1 := by
          unfold runRound
          by_cases hpass : (MultiAgentCritic.review (scoresOracle st.iterations)).pass
          · rw [if_pos hpass]
            simp
          · rw [if_neg hpass]
            simp
        omega
      · rw [if_neg hp]
        have h1 := ih (runRound recalled (scoresOracle st.iterations) st).1
        have h2 : (runRound recalled (scoresOracle st.iterations) st).1.history.length ≤
            st.history.length + 1 := by
          unfold runRound
          by_cases hpass : (MultiAgentCritic.review (scoresOracle st.iterations)).pass
          · rw [if_pos hpass]
            simp
          · rw [if_neg hpass]
            simp
        omega

/-- Accumulation never empties a nonempty note list and only stays empty
when nothing was added. -/
theorem accumTricks_eq_nil {injected new : List String}
    (h : accumTricks injected new = []) : injected = [] ∧ new = [] := by
  induction new generalizing injected with
  | nil => exact ⟨h, rfl⟩
  | cons t rest ih =>
      have h2 : accumTricks (if t ∈ injected then injected else injected ++ [t]) rest = [] := h
      obtain ⟨hbranch, -⟩ := ih h2
      by_cases hm : t ∈ injected
      · rw [if_pos hm] at hbranch
        subst hbranch
        exact absurd hm (List.not_mem_nil t)
      · rw [if_neg hm] at hbranch
        exact absurd hbranch (by simp)

/-- The `is_pattern_switch` heuristic is identically false: it asks for the
accumulated list to be empty while the newly injected tricks are nonempty,
but the new tricks were already accumulated. -/
theorem is_pattern_switch_false (a b : Bool) (injected0 new : List String) :
    (a && b && decide (accumTricks injected0 new = []) && decide (new ≠ [])) = false := by
  by_cases h : accumTricks injected0 new = []
  · obtain ⟨-, hnew⟩ := accumTricks_eq_nil h
    subst hnew
    simp
  · simp [h]

/-- Every generation call recorded by a loop round is the incremental
editor call: the `is_pattern_switch` heuristic can never fire, because the
new tricks are accumulated into `injected_tricks` before the emptiness
test. -/
theorem runRound_gens_editor (recalled : List RecalledPattern) (scores : List ℚ)
    (st : LoopSt) (g : GenCall) (hg : g ∈ (runRound recalled scores st).1.gens) :
    g ∈ st.gens ∨ g.editorMode = true := by
  unfold runRound at hg
  by_cases hpass : (MultiAgentCritic.review scores).pass
  · rw [if_pos hpass] at hg
    exact Or.inl hg
  · rw [if_neg hpass] at hg
    simp only [List.mem_append, List.mem_singleton] at hg
    rcases hg with hg | hg
    · exact Or.inl hg
    · refine Or.inr ?_
      subst hg
      dsimp only
      rw [is_pattern_switch_false]
      rfl

theorem runLoop_zero (recalled : List RecalledPattern) (o : ℕ → List ℚ) (st : LoopSt) :
    runLoop recalled o 0 st = st := rfl

theorem runLoop_succ (recalled : List RecalledPattern) (o : ℕ → List ℚ) (fuel : ℕ)
    (st : LoopSt) :
    runLoop recalled o (fuel + 1) st =
      (if (runRound recalled (o st.iterations) st).2 then
        (runRound recalled (o st.iterations) st).1
       else runLoop recalled o fuel (runRound recalled (o st.iterations) st).1) := rfl

/-- Along the whole loop, every recorded generation call is an editor call
(or was already in the starting state). -/
theorem runLoop_gens_editor (recalled : List RecalledPattern) (o : ℕ → List ℚ) :
    ∀ (fuel : ℕ) (st : LoopSt) (g : GenCall), g ∈ (runLoop recalled o fuel st).gens →
      g ∈ st.gens ∨ g.editorMode = true := by
  intro fuel
  induction fuel with
  | zero => intro st g hg; exact Or.inl hg
  | succ n ih =>
      intro st g hg
      rw [runLoop_succ] at hg
      by_cases hp : (runRound recalled (o st.iterations) st).2
      · rw [if_pos hp] at hg
        exact runRound_gens_editor recalled _ st g hg
      · rw [if_neg hp] at hg
        rcases ih _ g hg with h | h
        · exact runRound_gens_editor recalled _ st g h
        · exact Or.inr h

/-- In every run, every generation call of the refine loop is the
incremental editor call — the from-scratch regeneration branch is dead. -/
theorem run_gens_editor (recalled : List RecalledPattern) (scoresOracle : ℕ → List ℚ)
    (collision1 collision2 : Bool) (g : GenCall)
    (hg : g ∈ (Idea2StoryPipeline.run recalled scoresOracle collision1 collision2).gens) :
    g.editorMode = true := by
  unfold Idea2StoryPipeline.run at hg
  split at hg
  · exact absurd hg (List.not_mem_nil g)
  · rcases runLoop_gens_editor recalled scoresOracle MAX_REFINE_ITERATIONS _ g hg with h | h
    · exact absurd h (List.not_mem_nil g)
    · exact h

/-! ## Concrete run fixture: three failing critiques, no collision -/

/-- A minimal recalled pattern for concrete runs. -/
def cx1Info : PatternInfo :=
  { name := "P1", summary := "", cluster_size := some 5, skeleton_examples := [],
    top_tricks := [] }

def cx1Recalled : List RecalledPattern := [("p1", cx1Info, 0)]

/-- Critique oracle: every call scores `[9, 9, 1]` (mean 19/3 < 7, FAIL,
Storyteller lowest → `interpretability`). -/
def cx1Oracle : ℕ → List ℚ := fun _ => [9, 9, 1]

def cx1Critic : CriticResult :=
  { pass := false, avg_score := 19 / 3,
    reviews := [⟨"Methodology", 9⟩, ⟨"Novelty", 9⟩, ⟨"Storyteller", 1⟩],
    main_issue := "interpretability",
    suggestions := ["增加可视化分析", "补充 Case Study"] }

theorem cx1Review_eval : MultiAgentCritic.review [9, 9, 1] = cx1Critic := by
  unfold MultiAgentCritic.review cx1Critic
  have hnot : ¬ (critic_avg_score [9, 9, 1] ≥ PASS_SCORE) := by
    unfold critic_avg_score PASS_SCORE
    norm_num
  have hpass : critic_passed [9, 9, 1] = false := decide_eq_false hnot
  have havg : critic_avg_score [9, 9, 1] = 19 / 3 := by
    unfold critic_avg_score
    norm_num
  have hdiag : diagnose_issue ((reviewerRoles.zip [9, 9, 1]).map (fun p => Review.mk p.1 p.2))
      [9, 9, 1] = ("interpretability", ["增加可视化分析", "补充 Case Study"]) := by
    unfold diagnose_issue
    rw [show [(9 : ℚ), 9, 1].min? = some (min (min 9 9) 1) from rfl]
    rw [show min (min (9 : ℚ) 9) 1 = 1 by norm_num]
    dsimp only
    rw [List.indexOf_cons_ne _ (by norm_num : (9 : ℚ) ≠ 1),
        List.indexOf_cons_ne _ (by norm_num : (9 : ℚ) ≠ 1), List.indexOf_cons_self]
    rfl
  dsimp only
  rw [hpass, havg, hdiag]
  rfl

def cx1Gen : GenCall :=
  { patternId := "p1", switched := false, editorMode := true,
    newTricksOnly := inject_explanation_tricks, injectedTricks := inject_explanation_tricks }

def cx1St0 : LoopSt :=
  { iterations := 0, patternId := "p1", patternInfo := cx1Info, injected := [],
    used := ∅, history := [], gens := [] }

def cx1St1 : LoopSt :=
  { iterations := 1, patternId := "p1", patternInfo := cx1Info,
    injected := inject_explanation_tricks, used := ∅, history := [cx1Critic],
    gens := [cx1Gen] }

def cx1St2 : LoopSt :=
  { iterations := 2, patternId := "p1", patternInfo := cx1Info,
    injected := inject_explanation_tricks, used := ∅, history := [cx1Critic, cx1Critic],
    gens := [cx1Gen, cx1Gen] }

def cx1St3 : LoopSt :=
  { iterations := 3, patternId := "p1", patternInfo := cx1Info,
    injected := inject_explanation_tricks, used := ∅,
    history := [cx1Critic, cx1Critic, cx1Critic], gens := [cx1Gen, cx1Gen, cx1Gen] }

theorem cx1Round1 (n : ℕ) : runRound cx1Recalled (cx1Oracle n) cx1St0 = (cx1St1, false) := by
  unfold runRound
  rw [show cx1Oracle n = [9, 9, 1] from rfl, cx1Review_eval]
  rfl

theorem cx1Round2 (n : ℕ) : runRound cx1Recalled (cx1Oracle n) cx1St1 = (cx1St2, false) := by
  unfold runRound
  rw [show cx1Oracle n = [9, 9, 1] from rfl, cx1Review_eval]
  rfl

theorem cx1Round3 (n : ℕ) : runRound cx1Recalled (cx1Oracle n) cx1St2 = (cx1St3, false) := by
  unfold runRound
  rw [show cx1Oracle n = [9, 9, 1] from rfl, cx1Review_eval]
  rfl

theorem cx1Loop : runLoop cx1Recalled cx1Oracle 3 cx1St0 = cx1St3 := by
  rw [show (3 : ℕ) = 2 + 1 from rfl, runLoop_succ, cx1Round1]
  show runLoop cx1Recalled cx1Oracle 2 cx1St1 = cx1St3
  rw [show (2 : ℕ) = 1 + 1 from rfl, runLoop_succ, cx1Round2]
  show runLoop cx1Recalled cx1Oracle 1 cx1St2 = cx1St3
  rw [show (1 : ℕ) = 0 + 1 from rfl, runLoop_succ, cx1Round3]
  show runLoop cx1Recalled cx1Oracle 0 cx1St3 = cx1St3
  rfl

theorem cx1Run_eval : Idea2StoryPipeline.run cx1Recalled cx1Oracle false false =
    { success := true, noPattern := false, iterations := cx1St3.iterations,
      criticCalls := cx1St3.history.length, reviewHistory := cx1St3.history,
      gens := cx1St3.gens, pivoted := false } := by
  have hrun : Idea2StoryPipeline.run cx1Recalled cx1Oracle false false =
      { success := true, noPattern := false,
        iterations := (runLoop cx1Recalled cx1Oracle 3 cx1St0).iterations,
        criticCalls := (runLoop cx1Recalled cx1Oracle 3 cx1St0).history.length,
        reviewHistory := (runLoop cx1Recalled cx1Oracle 3 cx1St0).history,
        gens := (runLoop cx1Recalled cx1Oracle 3 cx1St0).gens,
        pivoted := false } := rfl
  rw [hrun, cx1Loop]

/-! ## Claim C1 -/

/-- C1, counterexample to the claim as stated: with one recalled pattern,
every critique failing (scores `[9, 9, 1]`, mean 19/3 < 7) and no collision
found, the run exhausts the iteration budget without a passing critique,
yet the returned result is a success — the program's needs-manual-review
status (`需人工审核`, shown iff `success` is false) is NOT set, contradicting
the claimed "needs_manual_review = true iff budget exhausted". -/
theorem claim_C1_counterexample :
    budget_exhausted_without_pass (Idea2StoryPipeline.run cx1Recalled cx1Oracle false false)
      = true ∧
    needs_manual_review (Idea2StoryPipeline.run cx1Recalled cx1Oracle false false) = false := by
  rw [cx1Run_eval]
  exact ⟨rfl, rfl⟩

/-- C1 (amended): the orchestrator invokes the critic at most
`max_iterations` times (hence within the claimed `max_iterations + 1`), and
the returned result is flagged for manual review (`success = false`) iff
the final collision verification failed — `run` carries no
`needs_manual_review` field and budget exhaustion without a passing
critique only prints a warning while the run proceeds to verification. -/
theorem claim_C1_amended (recalled : List RecalledPattern) (scoresOracle : ℕ → List ℚ)
    (collision1 collision2 : Bool) :
    (Idea2StoryPipeline.run recalled scoresOracle collision1 collision2).criticCalls ≤
      MAX_REFINE_ITERATIONS + 1 ∧
    needs_manual_review (Idea2StoryPipeline.run recalled scoresOracle collision1 collision2) =
      ((Idea2StoryPipeline.run recalled scoresOracle collision1 collision2).noPattern ||
        (collision1 && collision2)) := by
  constructor
  · unfold Idea2StoryPipeline.run
    split
    · norm_num
    · dsimp only
      rename_i pid pinfo heq
      have h := runLoop_history_le recalled scoresOracle MAX_REFINE_ITERATIONS
        { iterations := 0, patternId := pid, patternInfo := pinfo, injected := [],
          used := ∅, history := [], gens := [] }
      simp only [List.length_nil] at h
      omega
  · unfold needs_manual_review Idea2StoryPipeline.run
    split
    · cases collision1 <;> cases collision2 <;> rfl
    · cases collision1 <;> cases collision2 <;> rfl

/-! ## Concrete run fixture: novelty stall with pattern switch -/

def cx2Info1 : PatternInfo :=
  { name := "P1", summary := "", cluster_size := some 20, skeleton_examples := [],
    top_tricks := [] }

def cx2Info2 : PatternInfo :=
  { name := "P2", summary := "", cluster_size := some 2, skeleton_examples := [],
    top_tricks := [] }

def cx2Info3 : PatternInfo :=
  { name := "P3", summary := "", cluster_size := some 5, skeleton_examples := [],
    top_tricks := [] }

def cx2Recalled : List RecalledPattern :=
  [("p1", cx2Info1, 0), ("p2", cx2Info2, 0), ("p3", cx2Info3, 0)]

/-- Critique oracle: two failing novelty-diagnosed calls (`[7, 4, 7]`,
Novelty stuck at 4), then a passing one. -/
def cx2Oracle : ℕ → List ℚ := fun n => if n ≤ 1 then [7, 4, 7] else [9, 9, 9]

def cx2Critic : CriticResult :=
  { pass := false, avg_score := 6,
    reviews := [⟨"Methodology", 7⟩, ⟨"Novelty", 4⟩, ⟨"Storyteller", 7⟩],
    main_issue := "novelty",
    suggestions := ["注入冷门 Trick 提升新颖性", "寻找长尾 Pattern"] }

def cx2PassCritic : CriticResult :=
  { pass := true, avg_score := 9,
    reviews := [⟨"Methodology", 9⟩, ⟨"Novelty", 9⟩, ⟨"Storyteller", 9⟩],
    main_issue := "stability",
    suggestions := ["注入成熟稳健的 Trick", "增加鲁棒性验证"] }

theorem cx2Review_eval : MultiAgentCritic.review [7, 4, 7] = cx2Critic := by
  unfold MultiAgentCritic.review cx2Critic
  have hnot : ¬ (critic_avg_score [7, 4, 7] ≥ PASS_SCORE) := by
    unfold critic_avg_score PASS_SCORE
    norm_num
  have hpass : critic_passed [7, 4, 7] = false := decide_eq_false hnot
  have havg : critic_avg_score [7, 4, 7] = 6 := by
    unfold critic_avg_score
    norm_num
  have hdiag : diagnose_issue ((reviewerRoles.zip [7, 4, 7]).map (fun p => Review.mk p.1 p.2))
      [7, 4, 7] = ("novelty", ["注入冷门 Trick 提升新颖性", "寻找长尾 Pattern"]) := by
    unfold diagnose_issue
    rw [show [(7 : ℚ), 4, 7].min? = some (min (min 7 4) 7) from rfl]
    rw [show min (min (7 : ℚ) 4) 7 = 4 by norm_num]
    dsimp only
    rw [List.indexOf_cons_ne _ (by norm_num : (7 : ℚ) ≠ 4), List.indexOf_cons_self]
    rfl
  dsimp only
  rw [hpass, havg, hdiag]
  rfl

theorem cx2PassReview_eval : MultiAgentCritic.review [9, 9, 9] = cx2PassCritic := by
  unfold MultiAgentCritic.review cx2PassCritic
  have hyes : critic_avg_score [9, 9, 9] ≥ PASS_SCORE := by
    unfold critic_avg_score PASS_SCORE
    norm_num
  have hpass : critic_passed [9, 9, 9] = true := decide_eq_true hyes
  have havg : critic_avg_score [9, 9, 9] = 9 := by
    unfold critic_avg_score
    norm_num
  have hdiag : diagnose_issue ((reviewerRoles.zip [9, 9, 9]).map (fun p => Review.mk p.1 p.2))
      [9, 9, 9] = ("stability", ["注入成熟稳健的 Trick", "增加鲁棒性验证"]) := by
    unfold diagnose_issue
    rw [show [(9 : ℚ), 9, 9].min? = some (min (min 9 9) 9) from rfl]
    rw [show min (min (9 : ℚ) 9) 9 = 9 by norm_num]
    dsimp only
    rw [List.indexOf_cons_self]
    rfl
  dsimp only
  rw [hpass, havg, hdiag]
  rfl

def cx2TrickP2 : String := "融合 P2 的核心思路，重构现有方法论"

def cx2TrickP3 : String := "融合 P3 的核心思路，重构现有方法论"

def cx2Gen1 : GenCall :=
  { patternId := "p1", switched := false, editorMode := true,
    newTricksOnly := [cx2TrickP2], injectedTricks := [cx2TrickP2] }

def cx2Gen2 : GenCall :=
  { patternId := "p3", switched := true, editorMode := true,
    newTricksOnly := [cx2TrickP3], injectedTricks := [cx2TrickP3] }

def cx2St0 : LoopSt :=
  { iterations := 0, patternId := "p1", patternInfo := cx2Info1, injected := [],
    used := ∅, history := [], gens := [] }

def cx2St1 : LoopSt :=
  { iterations := 1, patternId := "p1", patternInfo := cx2Info1, injected := [cx2TrickP2],
    used := insert "p2" ∅, history := [cx2Critic], gens := [cx2Gen1] }

def cx2St2 : LoopSt :=
  { iterations := 2, patternId := "p3", patternInfo := cx2Info3, injected := [cx2TrickP3],
    used := insert "p3" (insert "p2" ∅), history := [cx2Critic, cx2Critic],
    gens := [cx2Gen1, cx2Gen2] }

def cx2St3 : LoopSt :=
  { iterations := 3, patternId := "p3", patternInfo := cx2Info3, injected := [cx2TrickP3],
    used := insert "p3" (insert "p2" ∅),
    history := [cx2Critic, cx2Critic, cx2PassCritic], gens := [cx2Gen1, cx2Gen2] }

theorem cx2Round1 : runRound cx2Recalled [7, 4, 7] cx2St0 = (cx2St1, false) := by
  unfold runRound
  rw [cx2Review_eval]
  rfl

theorem cx2Round2 : runRound cx2Recalled [7, 4, 7] cx2St1 = (cx2St2, false) := by
  unfold runRound
  rw [cx2Review_eval]
  dsimp only
  split
  · rename_i h
    exact absurd h (by decide)
  · split
    · split
      · split
        · rfl
        · rename_i h
          refine absurd ⟨by decide, ?_⟩ h
          show (4 : ℚ) ≤ 4 + 1 / 2
          norm_num
      · rename_i h
        exact absurd (by decide) h
    · rename_i h
      exact absurd rfl h

theorem cx2Round3 : runRound cx2Recalled [9, 9, 9] cx2St2 = (cx2St3, true) := by
  unfold runRound
  rw [cx2PassReview_eval]
  rfl

theorem cx2Loop : runLoop cx2Recalled cx2Oracle 3 cx2St0 = cx2St3 := by
  rw [show (3 : ℕ) = 2 + 1 from rfl, runLoop_succ,
      show cx2Oracle cx2St0.iterations = [7, 4, 7] from rfl, cx2Round1]
  show runLoop cx2Recalled cx2Oracle 2 cx2St1 = cx2St3
  rw [show (2 : ℕ) = 1 + 1 from rfl, runLoop_succ,
      show cx2Oracle cx2St1.iterations = [7, 4, 7] from rfl, cx2Round2]
  show runLoop cx2Recalled cx2Oracle 1 cx2St2 = cx2St3
  rw [show (1 : ℕ) = 0 + 1 from rfl, runLoop_succ,
      show cx2Oracle cx2St2.iterations = [9, 9, 9] from rfl, cx2Round3]
  rfl

theorem cx2Run_eval : Idea2StoryPipeline.run cx2Recalled cx2Oracle false false =
    { success := true, noPattern := false, iterations := cx2St3.iterations,
      criticCalls := cx2St3.history.length, reviewHistory := cx2St3.history,
      gens := cx2St3.gens, pivoted := false } := by
  have hrun : Idea2StoryPipeline.run cx2Recalled cx2Oracle false false =
      { success := true, noPattern := false,
        iterations := (runLoop cx2Recalled cx2Oracle 3 cx2St0).iterations,
        criticCalls := (runLoop cx2Recalled cx2Oracle 3 cx2St0).history.length,
        reviewHistory := (runLoop cx2Recalled cx2Oracle 3 cx2St0).history,
        gens := (runLoop cx2Recalled cx2Oracle 3 cx2St0).gens,
        pivoted := false } := rfl
  rw [hrun, cx2Loop]

/-! ## Claim C2 -/

/-- C2 (code bug): two consecutive novelty-diagnosed failures with a
non-improving Novelty score (4 then 4) do trigger the global switch on the
second round — the current pattern moves to the globally least-clustered
unused pattern `p3` and the accumulated technique list is discarded — but
the generation call of that round is STILL the incremental editor call
(`editorMode = true`): the from-scratch regeneration branch is dead code,
because `is_pattern_switch` tests `injected_tricks` for emptiness only
after the new tricks were accumulated into it.  The trace below records
`(patternId, switched, editorMode)` per refine round. -/
theorem claim_C2_bug :
    ((Idea2StoryPipeline.run cx2Recalled cx2Oracle false false).gens.map
      (fun g => (g.patternId, g.switched, g.editorMode))) =
      [("p1", false, true), ("p3", true, true)] := by
  rw [cx2Run_eval]
  rfl

/-! ## Claims C4, C7, C8, C9, C10 -/

/-- C4: a pattern id chosen for tail or head injection is never one already
in the session's used-pattern exclusion set, and after `N` successful
pattern-based injections (starting from the empty session set) the
exclusion set contains exactly `N` distinct pattern ids. -/
theorem claim_C4 :
    (∀ (recalled : List RecalledPattern) (used : Finset String) (k : InjectKind)
        (pid : String) (pinfo : PatternInfo) (csz : ℕ),
      injectChoose recalled used k = some (pid, pinfo, csz) → pid ∉ used) ∧
    (∀ (recalled : List RecalledPattern) (ops : List InjectKind),
      (runInjectSession recalled ops).1.card = (runInjectSession recalled ops).2) :=
  ⟨fun recalled used k pid pinfo csz h =>
      injectChoose_not_used recalled used k pid pinfo csz h,
   fun recalled ops => injectSession_card_invariant recalled ops (∅, 0) (by simp)⟩

theorem claim_C4_witness :
    injectChoose cx1Recalled ∅ InjectKind.tail = some ("p1", cx1Info, 5) ∧
    "p1" ∉ (∅ : Finset String) ∧
    (runInjectSession cx1Recalled [InjectKind.tail]).1.card =
      (runInjectSession cx1Recalled [InjectKind.tail]).2 :=
  ⟨by decide,
   claim_C4.1 cx1Recalled ∅ InjectKind.tail "p1" cx1Info 5 (by decide),
   claim_C4.2 cx1Recalled [InjectKind.tail]⟩

/-- C7: `PatternSelector.select` returns the empty mapping on an empty
ranked list, never more than 3 named slots, and pairwise distinct pattern
ids across the named slots. -/
theorem claim_C7 (recalled : List RecalledPattern) :
    PatternSelector.select ([] : List RecalledPattern) =
      { conservative := none, innovative := none, cross_domain := none } ∧
    (PatternSelector.select recalled).size ≤ 3 ∧
    ((PatternSelector.select recalled).slotIds).Nodup := by
  refine ⟨rfl, ?_, select_slotIds_nodup recalled⟩
  unfold Selection.size
  split <;> split <;> split <;> norm_num

/-- C8: mean-equals-threshold critiques PASS — scores `[8, 4, 9]` average
exactly to the pass threshold 7.0 and the decision is a pass; in general
the decision is the boundary-inclusive comparison `avg ≥ PASS_SCORE`. -/
theorem claim_C8 :
    critic_avg_score [8, 4, 9] = PASS_SCORE ∧
    (MultiAgentCritic.review [8, 4, 9]).pass = true ∧
    ∀ scores : List ℚ, (MultiAgentCritic.review scores).pass =
      decide (critic_avg_score scores ≥ PASS_SCORE) := by
  refine ⟨?_, ?_, fun scores => rfl⟩
  · unfold critic_avg_score PASS_SCORE
    norm_num
  · show critic_passed [8, 4, 9] = true
    refine decide_eq_true ?_
    unfold critic_avg_score PASS_SCORE
    norm_num

/-- C9: two identical method descriptions have similarity 1.0 and collide
at the default 0.75 threshold; disjoint-vocabulary descriptions have
similarity 0.0 and do not collide. -/
theorem claim_C9 (t u : String) :
    (tokenSet t ≠ ∅ →
      compute_similarity t t = 1 ∧ rag_collision_detected t [⟨t⟩] = true) ∧
    (tokenSet t ∩ tokenSet u = ∅ →
      compute_similarity t u = 0 ∧ rag_collision_detected t [⟨u⟩] = false) := by
  constructor
  · intro h
    have hsim : compute_similarity t t = 1 := compute_similarity_self t h
    have hne : t ≠ "" := by
      intro he
      subst he
      exact h rfl
    refine ⟨hsim, ?_⟩
    have hmax : rag_max_similarity t [⟨t⟩] = 1 := by
      unfold rag_max_similarity
      rw [show ([⟨t⟩] : List VPaper).take 50 = [⟨t⟩] from rfl,
        List.foldl_cons, List.foldl_nil]
      dsimp only
      rw [if_neg hne, hsim, if_pos (by norm_num : (1 : ℚ) > 3 / 10)]
      exact max_eq_right zero_le_one
    unfold rag_collision_detected COLLISION_THRESHOLD
    rw [hmax]
    exact decide_eq_true (by norm_num)
  · intro h
    have hsim : compute_similarity t u = 0 := compute_similarity_disjoint t u h
    refine ⟨hsim, ?_⟩
    have hmax : rag_max_similarity t [⟨u⟩] = 0 := by
      unfold rag_max_similarity
      rw [show ([⟨u⟩] : List VPaper).take 50 = [⟨u⟩] from rfl,
        List.foldl_cons, List.foldl_nil]
      dsimp only
      by_cases hu : u = ""
      · rw [if_pos hu]
      · rw [if_neg hu, hsim, if_neg (by norm_num : ¬ ((0 : ℚ) > 3 / 10))]
    unfold rag_collision_detected COLLISION_THRESHOLD
    rw [hmax]
    exact decide_eq_false (by norm_num)

theorem claim_C9_witness :
    (tokenSet "a b" ≠ ∅) ∧ (tokenSet "a b" ∩ tokenSet "c d" = ∅) ∧
    compute_similarity "a b" "a b" = 1 ∧
    rag_collision_detected "a b" [⟨"a b"⟩] = true ∧
    compute_similarity "a b" "c d" = 0 ∧
    rag_collision_detected "a b" [⟨"c d"⟩] = false := by
  have h1 : tokenSet "a b" ≠ ∅ := by decide
  have h2 : tokenSet "a b" ∩ tokenSet "c d" = ∅ := by decide
  obtain ⟨hs1, hc1⟩ := (claim_C9 "a b" "c d").1 h1
  obtain ⟨hs2, hc2⟩ := (claim_C9 "a b" "c d").2 h2
  exact ⟨h1, h2, hs1, hc1, hs2, hc2⟩

/-- C10: the reported `max_similarity` is the unfiltered maximum gated at
the 0.3 recording filter — in particular it is 0.0 whenever every sampled
paper's similarity is at most 0.3, even if nonzero overlap exists — and
the collision decision is unaffected by the filter, agreeing with the
unfiltered maximum compared against the 0.75 threshold. -/
theorem claim_C10 (d : String) (papers : List VPaper) :
    rag_max_similarity d papers =
      (if rag_true_max_similarity d papers > 3 / 10
       then rag_true_max_similarity d papers else 0) ∧
    rag_collision_detected d papers =
      decide (rag_true_max_similarity d papers > COLLISION_THRESHOLD) :=
  ⟨rag_max_similarity_eq d papers, rag_collision_eq_unfiltered d papers⟩

/-! ## RecallSystem (recall_system.py) -/

/-- One directed graph edge with the numeric attributes the recall paths
read (`edge_data.get(attr, default)` is modelled with `Option`). -/
structure GEdge where
  src : String
  tgt : String
  relation : String
  quality : Option ℚ
  weight : Option ℚ
  effectiveness : Option ℚ
  confidence : Option ℚ
deriving DecidableEq, Repr

/-- The in-memory graph view: node ids plus typed weighted edges. -/
structure Graph where
  nodes : List String
  edges : List GEdge
deriving DecidableEq, Repr

/-- Source `G.has_node(n)`. -/
def Graph.hasNode (g : Graph) (n : String) : Bool := g.nodes.contains n

/-- Source `for succ in G.successors(n): if edge.relation == rel` — the outgoing
edges of `n` carrying the given relation tag. -/
def Graph.successorsRel (g : Graph) (n : String) (rel : String) : List GEdge :=
  g.edges.filter (fun e => e.src = n ∧ e.relation = rel)

/-- Source `for pred in G.predecessors(n): if edge.relation == rel`. -/
def Graph.predecessorsRel (g : Graph) (n : String) (rel : String) : List GEdge :=
  g.edges.filter (fun e => e.tgt = n ∧ e.relation = rel)

/-- The Idea-node fields read by the recall paths. -/
structure IdeaNode where
  idea_id : String
  description : String
  source_paper_ids : List String
  pattern_ids : List String
deriving DecidableEq, Repr

/-- The Domain-node fields read by path 2. -/
structure DomainNode where
  domain_id : String
  name : String
deriving DecidableEq, Repr

/-- One review record of a paper (`r.get('rating', 5)`). -/
structure ReviewRec where
  rating : Option ℚ
deriving DecidableEq, Repr

/-- The Paper-node fields read by path 3 (`paper['idea']['core_idea']` is
flattened into `core_idea`). -/
structure PaperNode where
  paper_id : String
  core_idea : String
  reviews : List ReviewRec
deriving DecidableEq, Repr

/-- Source `defaultdict(float)` accumulation `m[k] += v`, preserving insertion
order of first occurrence. -/
def addScore : List (String × ℚ) → String → ℚ → List (String × ℚ)
  | [], k, v => [(k, v)]
  | (k0, v0) :: rest, k, v =>
      if k0 = k then (k0, v0 + v) :: rest else (k0, v0) :: addScore rest k v

/-- Source `m.get(k, 0.0)`. -/
def getScore (m : List (String × ℚ)) (k : String) : ℚ :=
  ((m.find? (fun e => e.1 = k)).map Prod.snd).getD 0

/-- Source `RecallConfig.PATH1_TOP_K_IDEAS = 10`. -/
def PATH1_TOP_K_IDEAS : ℕ := 10

/-- Source `RecallConfig.PATH2_TOP_K_DOMAINS = 5`. -/
def PATH2_TOP_K_DOMAINS : ℕ := 5

/-- Source `RecallConfig.PATH3_TOP_K_PAPERS = 20`. -/
def PATH3_TOP_K_PAPERS : ℕ := 20

/-- Source `RecallConfig.PATH1_WEIGHT = 0.4`. -/
def PATH1_WEIGHT : ℚ := 4 / 10

/-- Source `RecallConfig.PATH2_WEIGHT = 0.3`. -/
def PATH2_WEIGHT : ℚ := 3 / 10

/-- Source `RecallConfig.PATH3_WEIGHT = 0.3`. -/
def PATH3_WEIGHT : ℚ := 3 / 10

/-- Source `RecallConfig.FINAL_TOP_K = 10`. -/
def FINAL_TOP_K : ℕ := 10

/-- Source `self.idea_id_to_idea[...]` (dict comprehension, later entries win). -/
def idea_id_to_idea (ideas : List IdeaNode) (iid : String) : Option IdeaNode :=
  ideas.reverse.find? (fun i => i.idea_id = iid)

/-- Source `self.domain_id_to_domain.get(...)`. -/
def domain_id_to_domain (domains : List DomainNode) (did : String) : Option DomainNode :=
  domains.reverse.find? (fun d => d.domain_id = did)

/-- Source `self.pattern_id_to_pattern.get(pattern_id, {})`. -/
def pattern_id_to_pattern (patterns : List (String × PatternInfo)) (pid : String) :
    PatternInfo :=
  (((patterns.reverse.find? (fun p => p.1 = pid)).map Prod.snd)).getD default

/-- Path 1, step 1-2: per-Idea similarities (`sim > 0` kept), sorted
descending, top `PATH1_TOP_K_IDEAS` kept. -/
def path1TopIdeas (ideas : List IdeaNode) (user_idea : String) : List (String × ℚ) :=
  (sortDescBy Prod.snd
    (ideas.filterMap (fun idea =>
      let sim := compute_similarity user_idea idea.description
      if sim > 0 then some (idea.idea_id, sim) else none))).take PATH1_TOP_K_IDEAS

/-- Path 1, step 3: for each kept Idea, walk its source papers'
`uses_pattern` edges, accumulating `similarity × quality` per Pattern. -/
def recallPath1 (g : Graph) (ideas : List IdeaNode) (user_idea : String) :
    List (String × ℚ) :=
  (path1TopIdeas ideas user_idea).foldl
    (fun m p =>
      match idea_id_to_idea ideas p.1 with
      | none => m
      | some idea =>
          idea.source_paper_ids.foldl
            (fun m2 paper_id =>
              if g.hasNode paper_id then
                (g.successorsRel paper_id "uses_pattern").foldl
                  (fun m3 e => addScore m3 e.tgt (p.2 * e.quality.getD (1 / 2))) m2
              else m2)
            m)
    []

/-- Path 2, step 1: domain relevance by keyword match, with the
most-similar-Idea `belongs_to` fallback. -/
def path2DomainScores (g : Graph) (ideas : List IdeaNode) (domains : List DomainNode)
    (user_idea : String) : List (String × ℚ) :=
  let user_tokens := tokenSet user_idea
  let direct := domains.filterMap (fun d =>
    let match_score : ℚ :=
      ((user_tokens ∩ tokenSet d.name).card : ℚ) / (max user_tokens.card 1 : ℚ)
    if match_score > 0 then some (d.domain_id, match_score) else none)
  if direct = [] then
    match (sortDescBy Prod.snd
        (ideas.filterMap (fun idea =>
          let sim := compute_similarity user_idea idea.description
          if sim > 0 then some (idea, sim) else none))).head? with
    | none => []
    | some (top_idea, _) =>
        (g.successorsRel top_idea.idea_id "belongs_to").map
          (fun e => (e.tgt, e.weight.getD (1 / 2)))
  else direct

/-- Path 2, steps 2-3: keep the top domains and accumulate
`domain_weight × max(effectiveness, 0.1) × confidence` over incoming
`works_well_in` edges. -/
def recallPath2 (g : Graph) (ideas : List IdeaNode) (domains : List DomainNode)
    (user_idea : String) : List (String × ℚ) :=
  ((sortDescBy Prod.snd (path2DomainScores g ideas domains user_idea)).take
    PATH2_TOP_K_DOMAINS).foldl
    (fun m p =>
      match domain_id_to_domain domains p.1 with
      | none => m
      | some _ =>
          (g.predecessorsRel p.1 "works_well_in").foldl
            (fun m2 e =>
              addScore m2 e.src (p.2 * max (e.effectiveness.getD 0) (1 / 10) *
                e.confidence.getD 0))
            m)
    []

/-- Paper quality from review ratings: `(mean - 1) / 9`, default 0.5. -/
def paperQuality (p : PaperNode) : ℚ :=
  if p.reviews = [] then 1 / 2
  else
    let scores := p.reviews.map (fun r => r.rating.getD 5)
    (scores.sum / (scores.length : ℚ) - 1) / 9

/-- Path 3, steps 1-2: papers with nonempty core idea, `sim > 0.1` and a
graph node, ranked by `sim × quality`, top `PATH3_TOP_K_PAPERS` kept as
`(paper_id, sim, quality, combined)`. -/
def path3TopPapers (g : Graph) (papers : List PaperNode) (user_idea : String) :
    List (String × ℚ × ℚ × ℚ) :=
  (sortDescBy (fun t : String × ℚ × ℚ × ℚ => t.2.2.2)
    (papers.filterMap (fun paper =>
      if paper.core_idea = "" then none
      else
        let sim := compute_similarity user_idea paper.core_idea
        if sim > 1 / 10 ∧ g.hasNode paper.paper_id then
          let quality := paperQuality paper
          some (paper.paper_id, sim, quality, sim * quality)
        else none))).take PATH3_TOP_K_PAPERS

/-- Path 3, step 3: accumulate `combined_weight × pattern quality` over
each kept paper's `uses_pattern` edges. -/
def recallPath3 (g : Graph) (papers : List PaperNode) (user_idea : String) :
    List (String × ℚ) :=
  (path3TopPapers g papers user_idea).foldl
    (fun m t =>
      if g.hasNode t.1 then
        (g.successorsRel t.1 "uses_pattern").foldl
          (fun m2 e => addScore m2 e.tgt (t.2.2.2 * e.quality.getD (1 / 2))) m
      else m)
    []

/-- The fusion step: over the union of pattern ids touched by any path,
`final = w1·path1 + w2·path2 + w3·path3`. -/
def fuseScores (p1 p2 p3 : List (String × ℚ)) : List (String × ℚ) :=
  ((p1.map Prod.fst ++ p2.map Prod.fst ++ p3.map Prod.fst).dedup).map
    (fun pid =>
      (pid, getScore p1 pid * PATH1_WEIGHT + getScore p2 pid * PATH2_WEIGHT +
        getScore p3 pid * PATH3_WEIGHT))

/-- Source `RecallSystem.recall`: three paths, fusion, sort descending by final
score, truncate to `FINAL_TOP_K`, and attach pattern infos. -/
def RecallSystem.recall (g : Graph) (ideas : List IdeaNode) (domains : List DomainNode)
    (papers : List PaperNode) (patterns : List (String × PatternInfo))
    (user_idea : String) : List (String × PatternInfo × ℚ) :=
  let path1_scores := recallPath1 g ideas user_idea
  let path2_scores := recallPath2 g ideas domains user_idea
  let path3_scores := recallPath3 g papers user_idea
  let final_scores := fuseScores path1_scores path2_scores path3_scores
  let ranked := sortDescBy Prod.snd final_scores
  let top_k := ranked.take FINAL_TOP_K
  top_k.map (fun p => (p.1, pattern_id_to_pattern patterns p.1, p.2))

/-- Every fused entry's score is the weighted sum of its three path
scores. -/
theorem mem_fuseScores {p1 p2 p3 : List (String × ℚ)} {p : String × ℚ}
    (h : p ∈ fuseScores p1 p2 p3) :
    p.2 = getScore p1 p.1 * PATH1_WEIGHT + getScore p2 p.1 * PATH2_WEIGHT +
      getScore p3 p.1 * PATH3_WEIGHT := by
  obtain ⟨k, -, rfl⟩ := List.mem_map.mp h
  rfl

/-- Every entry of the final recall list carries the fused weighted sum of
its three path scores. -/
theorem recall_entry_score {g : Graph} {ideas : List IdeaNode} {domains : List DomainNode}
    {papers : List PaperNode} {patterns : List (String × PatternInfo)} {user_idea : String}
    {t : String × PatternInfo × ℚ}
    (ht : t ∈ RecallSystem.recall g ideas domains papers patterns user_idea) :
    t.2.2 = getScore (recallPath1 g ideas user_idea) t.1 * PATH1_WEIGHT +
      getScore (recallPath2 g ideas domains user_idea) t.1 * PATH2_WEIGHT +
      getScore (recallPath3 g papers user_idea) t.1 * PATH3_WEIGHT := by
  simp only [RecallSystem.recall] at ht
  obtain ⟨p, hp, rfl⟩ := List.mem_map.mp ht
  have hp2 : p ∈ sortDescBy Prod.snd
      (fuseScores (recallPath1 g ideas user_idea) (recallPath2 g ideas domains user_idea)
        (recallPath3 g papers user_idea)) := List.mem_of_mem_take hp
  have hp3 := (sortDescBy_perm Prod.snd _).mem_iff.mp hp2
  exact mem_fuseScores hp3

/-- C5: the fused recall result has length at most the configured final
Top-K (10), is sorted in non-increasing order of fused score, and every
listed pattern's score is `w1·path1 + w2·path2 + w3·path3` over the
configured path weights. -/
theorem claim_C5 (g : Graph) (ideas : List IdeaNode) (domains : List DomainNode)
    (papers : List PaperNode) (patterns : List (String × PatternInfo)) (user_idea : String) :
    (RecallSystem.recall g ideas domains papers patterns user_idea).length ≤ FINAL_TOP_K ∧
    ((RecallSystem.recall g ideas domains papers patterns user_idea).map
      (fun t => t.2.2)).Sorted (fun a b => b ≤ a) ∧
    ∀ i : Fin (RecallSystem.recall g ideas domains papers patterns user_idea).length,
      ((RecallSystem.recall g ideas domains papers patterns user_idea).get i).2.2 =
        getScore (recallPath1 g ideas user_idea)
            ((RecallSystem.recall g ideas domains papers patterns user_idea).get i).1 *
          PATH1_WEIGHT +
        getScore (recallPath2 g ideas domains user_idea)
            ((RecallSystem.recall g ideas domains papers patterns user_idea).get i).1 *
          PATH2_WEIGHT +
        getScore (recallPath3 g papers user_idea)
            ((RecallSystem.recall g ideas domains papers patterns user_idea).get i).1 *
          PATH3_WEIGHT := by
  refine ⟨?_, ?_, ?_⟩
  · simp only [RecallSystem.recall]
    rw [List.length_map, List.length_take]
    exact min_le_left _ _
  · simp only [RecallSystem.recall]
    rw [List.map_map]
    have hsorted : (sortDescBy Prod.snd
        (fuseScores (recallPath1 g ideas user_idea)
          (recallPath2 g ideas domains user_idea)
          (recallPath3 g papers user_idea))).Sorted
        (fun a b : String × ℚ => b.2 ≤ a.2) := sortDescBy_sorted Prod.snd _
    have htake := List.Pairwise.sublist (List.take_sublist FINAL_TOP_K _) hsorted
    exact List.pairwise_map.mpr htake
  · intro i
    exact recall_entry_score
      (List.get_mem (RecallSystem.recall g ideas domains papers patterns user_idea) i.1 i.2)

/-- Specification-side restatement of the path-1 score (from the claim's
words): for each kept similar Idea, every pattern reachable via the Idea's
source papers' `uses_pattern` edges receives `similarity × edge quality`,
summed over duplicate contributions. -/
def path1SpecScore (g : Graph) (ideas : List IdeaNode) (user_idea : String)
    (pid : String) : ℚ :=
  ((path1TopIdeas ideas user_idea).map (fun p =>
    match idea_id_to_idea ideas p.1 with
    | none => 0
    | some idea =>
        (idea.source_paper_ids.map (fun paper_id =>
          if g.hasNode paper_id then
            (((g.successorsRel paper_id "uses_pattern").filter
              (fun e => e.tgt = pid)).map
                (fun e => p.2 * e.quality.getD (1 / 2))).sum
          else 0)).sum)).sum

theorem getScore_cons (k0 : String) (v0 : ℚ) (rest : List (String × ℚ)) (k2 : String) :
    getScore ((k0, v0) :: rest) k2 = if k0 = k2 then v0 else getScore rest k2 := by
  unfold getScore
  by_cases h : k0 = k2
  · rw [if_pos h, List.find?_cons_of_pos _ (by simpa using h)]
    rfl
  · rw [if_neg h, List.find?_cons_of_neg _ (by simpa using h)]

theorem getScore_addScore (m : List (String × ℚ)) (k k2 : String) (v : ℚ) :
    getScore (addScore m k v) k2 = getScore m k2 + (if k2 = k then v else 0) := by
  induction m with
  | nil =>
      unfold addScore
      rw [getScore_cons]
      by_cases h : k2 = k
      · rw [if_pos h.symm, if_pos h]
        unfold getScore
        simp
      · rw [if_neg (fun hq => h hq.symm), if_neg h]
        unfold getScore
        simp
  | cons hd tl ih =>
      obtain ⟨k0, v0⟩ := hd
      unfold addScore
      by_cases h0 : k0 = k
      · rw [if_pos h0, getScore_cons, getScore_cons]
        by_cases h2 : k0 = k2
        · rw [if_pos h2, if_pos h2, if_pos (h2 ▸ h0 : k2 = k).symm.symm]
        · rw [if_neg h2, if_neg h2, if_neg (fun hq => h2 ((hq.trans h0.symm).symm))]
          ring
      · rw [if_neg h0, getScore_cons, getScore_cons]
        by_cases h2 : k0 = k2
        · rw [if_pos h2, if_pos h2, if_neg (fun hq => h0 (h2.trans hq))]
          ring
        · rw [if_neg h2, if_neg h2, ih]

theorem getScore_edges_fold (s : ℚ) (pid : String) :
    ∀ (es : List GEdge) (m : List (String × ℚ)),
      getScore (es.foldl (fun m3 e => addScore m3 e.tgt (s * e.quality.getD (1 / 2))) m)
          pid =
        getScore m pid + ((es.filter (fun e => e.tgt = pid)).map
          (fun e => s * e.quality.getD (1 / 2))).sum := by
  intro es
  induction es with
  | nil =>
      intro m
      simp
  | cons e tl ih =>
      intro m
      rw [List.foldl_cons, ih, getScore_addScore]
      by_cases h : e.tgt = pid
      · rw [if_pos h.symm, List.filter_cons_of_pos (by simpa using h), List.map_cons,
          List.sum_cons]
        ring
      · rw [if_neg (fun hq => h hq.symm), List.filter_cons_of_neg (by simpa using h)]
        ring

theorem getScore_papers_fold (g : Graph) (s : ℚ) (pid : String) :
    ∀ (ps : List String) (m : List (String × ℚ)),
      getScore (ps.foldl
          (fun m2 paper_id =>
            if g.hasNode paper_id then
              (g.successorsRel paper_id "uses_pattern").foldl
                (fun m3 e => addScore m3 e.tgt (s * e.quality.getD (1 / 2))) m2
            else m2)
          m) pid =
        getScore m pid + (ps.map (fun paper_id =>
          if g.hasNode paper_id then
            (((g.successorsRel paper_id "uses_pattern").filter
              (fun e => e.tgt = pid)).map (fun e => s * e.quality.getD (1 / 2))).sum
          else 0)).sum := by
  intro ps
  induction ps with
  | nil =>
      intro m
      simp
  | cons p tl ih =>
      intro m
      rw [List.foldl_cons, ih, List.map_cons, List.sum_cons]
      by_cases h : g.hasNode p
      · rw [if_pos h, if_pos h, getScore_edges_fold]
        ring
      · rw [if_neg h, if_neg h]
        ring

theorem getScore_kept_fold (g : Graph) (ideas : List IdeaNode) (pid : String) :
    ∀ (kept : List (String × ℚ)) (m : List (String × ℚ)),
      getScore (kept.foldl
          (fun m p =>
            match idea_id_to_idea ideas p.1 with
            | none => m
            | some idea =>
                idea.source_paper_ids.foldl
                  (fun m2 paper_id =>
                    if g.hasNode paper_id then
                      (g.successorsRel paper_id "uses_pattern").foldl
                        (fun m3 e => addScore m3 e.tgt (p.2 * e.quality.getD (1 / 2))) m2
                    else m2)
                  m)
          m) pid =
        getScore m pid + (kept.map (fun p =>
          match idea_id_to_idea ideas p.1 with
          | none => 0
          | some idea =>
              (idea.source_paper_ids.map (fun paper_id =>
                if g.hasNode paper_id then
                  (((g.successorsRel paper_id "uses_pattern").filter
                    (fun e => e.tgt = pid)).map
                      (fun e => p.2 * e.quality.getD (1 / 2))).sum
                else 0)).sum)).sum := by
  intro kept
  induction kept with
  | nil =>
      intro m
      simp
  | cons p tl ih =>
      intro m
      rw [List.foldl_cons, ih, List.map_cons, List.sum_cons]
      cases hidea : idea_id_to_idea ideas p.1 with
      | none =>
          dsimp only
          ring
      | some idea =>
          dsimp only
          rw [getScore_papers_fold]
          ring

/-- C6: the path-1 score of every pattern equals the specification-side
sum — for each kept similar Idea and each of its source papers present in
the graph, `similarity × edge quality` over that paper's `uses_pattern`
edges into the pattern, summed across duplicates — and a pattern that is
the target of no `uses_pattern` edge at all receives no path-1 score. -/
theorem claim_C6 (g : Graph) (ideas : List IdeaNode) (user_idea : String) (pid : String) :
    getScore (recallPath1 g ideas user_idea) pid = path1SpecScore g ideas user_idea pid ∧
    (pid ∉ (g.edges.filter (fun e => e.relation = "uses_pattern")).map (fun e => e.tgt) →
      getScore (recallPath1 g ideas user_idea) pid = 0) := by
  have hmain : getScore (recallPath1 g ideas user_idea) pid =
      path1SpecScore g ideas user_idea pid := by
    unfold recallPath1 path1SpecScore
    rw [getScore_kept_fold]
    simp [getScore]
  refine ⟨hmain, fun hnot => ?_⟩
  rw [hmain]
  unfold path1SpecScore
  apply List.sum_eq_zero
  intro x hx
  obtain ⟨p, -, rfl⟩ := List.mem_map.mp hx
  cases hidea : idea_id_to_idea ideas p.1 with
  | none => rfl
  | some idea =>
      dsimp only
      apply List.sum_eq_zero
      intro y hy
      obtain ⟨ppid, -, rfl⟩ := List.mem_map.mp hy
      by_cases hnode : g.hasNode ppid
      · rw [if_pos hnode]
        have hfilter : (g.successorsRel ppid "uses_pattern").filter
            (fun e => e.tgt = pid) = [] := by
          rw [List.filter_eq_nil_iff]
          intro e he
          simp only [decide_eq_true_eq]
          intro hetgt
          apply hnot
          refine List.mem_map.mpr ⟨e, ?_, hetgt⟩
          have hmemf := List.mem_filter.mp he
          refine List.mem_filter.mpr ⟨hmemf.1, ?_⟩
          have hrel := (decide_eq_true_eq.mp hmemf.2).2
          simpa using hrel
        rw [hfilter]
        rfl
      · rw [if_neg hnode]

def c6Graph : Graph :=
  { nodes := ["pp1", "pat1"],
    edges := [{ src := "pp1", tgt := "pat1", relation := "uses_pattern",
                quality := some (1 / 2), weight := none, effectiveness := none,
                confidence := none }] }

def c6Ideas : List IdeaNode :=
  [{ idea_id := "i1", description := "graph neural network", source_paper_ids := ["pp1"],
     pattern_ids := ["pat1"] }]

theorem claim_C6_witness :
    ("patX" ∉ (c6Graph.edges.filter (fun e => e.relation = "uses_pattern")).map
      (fun e => e.tgt)) ∧
    getScore (recallPath1 c6Graph c6Ideas "graph neural network for text") "patX" = 0 := by
  have h : "patX" ∉ (c6Graph.edges.filter (fun e => e.relation = "uses_pattern")).map
      (fun e => e.tgt) := by decide
  exact ⟨h, (claim_C6 c6Graph c6Ideas "graph neural network for text" "patX").2 h⟩

/-! ## EdgeBuilder._build_idea_belongs_to_domain_edges (build_edges.py) -/

/-- The Paper-node fields read when building `belongs_to` edges. -/
structure BPaper where
  paper_id : String
  domains : List String
deriving DecidableEq, Repr

/-- The Domain-node fields read when building `belongs_to` edges. -/
structure BDomain where
  name : String
  domain_id : String
deriving DecidableEq, Repr

/-- The Idea-node fields read when building `belongs_to` edges. -/
structure BIdea where
  idea_id : String
  source_paper_ids : List String
deriving DecidableEq, Repr

/-- Source `self.paper_id_to_paper.get(paper_id)`. -/
def paper_id_to_paper (papers : List BPaper) (ppid : String) : Option BPaper :=
  papers.reverse.find? (fun p => p.paper_id = ppid)

/-- Source `self.domain_name_to_id.get(domain_name)`. -/
def domain_name_to_id (domains : List BDomain) (dname : String) : Option String :=
  (domains.reverse.find? (fun d => d.name = dname)).map (fun d => d.domain_id)

/-- Source `defaultdict(int)` accumulation `counts[k] += 1`. -/
def bumpCount : List (String × ℕ) → String → List (String × ℕ)
  | [], k => [(k, 1)]
  | (k0, c) :: rest, k =>
      if k0 = k then (k0, c + 1) :: rest else (k0, c) :: bumpCount rest k

/-- Source `domain_counts` of `_build_idea_belongs_to_domain_edges`: for each
found source paper, each domain name that maps to a (truthy) domain id
bumps that domain's count. -/
def domainCounts (papers : List BPaper) (domains : List BDomain) (idea : BIdea) :
    List (String × ℕ) :=
  idea.source_paper_ids.foldl
    (fun acc ppid =>
      match paper_id_to_paper papers ppid with
      | none => acc
      | some paper =>
          paper.domains.foldl
            (fun acc2 dname =>
              match domain_name_to_id domains dname with
              | none => acc2
              | some did => if did ≠ "" then bumpCount acc2 did else acc2)
            acc)
    []

/-- The `(domain_id, weight)` pairs of the `belongs_to` edges built for one
Idea: `weight = count / total_papers` with `total_papers =
len(source_paper_ids)`; ideas with no source papers are skipped. -/
def belongsToWeights (papers : List BPaper) (domains : List BDomain) (idea : BIdea) :
    List (String × ℚ) :=
  if idea.source_paper_ids = [] then []
  else
    (domainCounts papers domains idea).map
      (fun p => (p.1, (p.2 : ℚ) / (idea.source_paper_ids.length : ℚ)))

/-- The counted domain-id occurrences one source paper contributes. -/
def countedDomainIds (papers : List BPaper) (domains : List BDomain) (ppid : String) :
    List String :=
  match paper_id_to_paper papers ppid with
  | none => []
  | some paper =>
      paper.domains.filterMap (fun dname =>
        match domain_name_to_id domains dname with
        | none => none
        | some did => if did ≠ "" then some did else none)

/-- Sum of the per-domain counts. -/
def sumCounts (m : List (String × ℕ)) : ℕ := (m.map Prod.snd).sum

theorem sumCounts_bumpCount (m : List (String × ℕ)) (k : String) :
    sumCounts (bumpCount m k) = sumCounts m + 1 := by
  induction m with
  | nil => rfl
  | cons hd tl ih =>
      obtain ⟨k0, c⟩ := hd
      unfold bumpCount
      by_cases h : k0 = k
      · rw [if_pos h]
        simp [sumCounts]
        omega
      · rw [if_neg h]
        simp only [sumCounts, List.map_cons, List.sum_cons] at ih ⊢
        omega

theorem sumCounts_foldl_bump :
    ∀ (l : List String) (m : List (String × ℕ)),
      sumCounts (l.foldl bumpCount m) = sumCounts m + l.length := by
  intro l
  induction l with
  | nil => intro m; simp
  | cons k tl ih =>
      intro m
      rw [List.foldl_cons, ih, sumCounts_bumpCount, List.length_cons]
      omega

theorem inner_fold_eq_filterMap (domains : List BDomain) :
    ∀ (dnames : List String) (acc : List (String × ℕ)),
      dnames.foldl
        (fun acc2 dname =>
          match domain_name_to_id domains dname with
          | none => acc2
          | some did => if did ≠ "" then bumpCount acc2 did else acc2)
        acc =
      (dnames.filterMap (fun dname =>
        match domain_name_to_id domains dname with
        | none => none
        | some did => if did ≠ "" then some did else none)).foldl bumpCount acc := by
  intro dnames
  induction dnames with
  | nil => intro acc; rfl
  | cons dn tl ih =>
      intro acc
      rw [List.foldl_cons, List.filterMap_cons]
      cases hd : domain_name_to_id domains dn with
      | none => exact ih acc
      | some did =>
          dsimp only
          by_cases hne : did ≠ ""
          · rw [if_pos hne, if_pos hne, List.foldl_cons]
            exact ih (bumpCount acc did)
          · rw [if_neg hne, if_neg hne]
            exact ih acc

theorem domainCounts_eq_flat (papers : List BPaper) (domains : List BDomain) :
    ∀ (pps : List String) (acc : List (String × ℕ)),
      pps.foldl
        (fun acc ppid =>
          match paper_id_to_paper papers ppid with
          | none => acc
          | some paper =>
              paper.domains.foldl
                (fun acc2 dname =>
                  match domain_name_to_id domains dname with
                  | none => acc2
                  | some did => if did ≠ "" then bumpCount acc2 did else acc2)
                acc)
        acc =
      (pps.flatMap (countedDomainIds papers domains)).foldl bumpCount acc := by
  intro pps
  induction pps with
  | nil => intro acc; rfl
  | cons pp tl ih =>
      intro acc
      rw [List.foldl_cons, List.flatMap_cons, List.foldl_append]
      unfold countedDomainIds
      cases hp : paper_id_to_paper papers pp with
      | none => exact ih acc
      | some paper =>
          dsimp only
          rw [inner_fold_eq_filterMap]
          exact ih _

theorem length_flatMap_sum {α β : Type} (l : List α) (f : α → List β) :
    (l.flatMap f).length = (l.map (fun x => (f x).length)).sum := by
  induction l with
  | nil => rfl
  | cons h t ih => simp [List.flatMap_cons, ih]

/-- C3, counterexample to the claim as stated: an Idea with a single
source paper that belongs to two domains gets two `belongs_to` edges of
weight 1.0 each — the weights sum to 2.0, not 1.0. -/
theorem claim_C3_counterexample :
    (BIdea.mk "i1" ["pp1"]).source_paper_ids ≠ [] ∧
    ((belongsToWeights [⟨"pp1", ["A", "B"]⟩] [⟨"A", "d1"⟩, ⟨"B", "d2"⟩]
      (BIdea.mk "i1" ["pp1"])).map Prod.snd).sum ≠ 1 := by
  refine ⟨by decide, ?_⟩
  have hc : domainCounts [⟨"pp1", ["A", "B"]⟩] [⟨"A", "d1"⟩, ⟨"B", "d2"⟩]
      (BIdea.mk "i1" ["pp1"]) = [("d1", 1), ("d2", 1)] := by decide
  unfold belongsToWeights
  rw [if_neg (by decide), hc]
  norm_num

/-- C3 (amended): when every source paper of the Idea resolves in the
paper index and contributes exactly one counted domain occurrence, the
`belongs_to` weights of that Idea sum to 1.0 and each lies in [0, 1]; in
general the weights sum to (counted occurrences) / (source papers), which
exceeds 1.0 for multi-domain papers. -/
theorem claim_C3_amended (papers : List BPaper) (domains : List BDomain) (idea : BIdea)
    (hne : idea.source_paper_ids ≠ [])
    (H : ∀ ppid ∈ idea.source_paper_ids,
      (countedDomainIds papers domains ppid).length = 1) :
    ((belongsToWeights papers domains idea).map Prod.snd).sum = 1 ∧
    ∀ w ∈ (belongsToWeights papers domains idea).map Prod.snd, 0 ≤ w ∧ w ≤ 1 := by
  have hlen : idea.source_paper_ids.length ≠ 0 := by
    simpa [List.length_eq_zero] using hne
  have hT : (0 : ℚ) < (idea.source_paper_ids.length : ℚ) := by
    exact_mod_cast Nat.pos_of_ne_zero hlen
  have hflatlen : (idea.source_paper_ids.flatMap (countedDomainIds papers domains)).length
      = idea.source_paper_ids.length := by
    rw [length_flatMap_sum]
    have : idea.source_paper_ids.map
        (fun x => (countedDomainIds papers domains x).length) =
        idea.source_paper_ids.map (fun _ => 1) := by
      apply List.map_congr_left
      intro x hx
      exact H x hx
    rw [this]
    simp [List.map_const]
  have hsum : sumCounts (domainCounts papers domains idea) =
      idea.source_paper_ids.length := by
    unfold domainCounts
    rw [domainCounts_eq_flat, sumCounts_foldl_bump]
    simpa [sumCounts] using hflatlen
  have hweights : (belongsToWeights papers domains idea).map Prod.snd =
      (domainCounts papers domains idea).map
        (fun p => (p.2 : ℚ) / (idea.source_paper_ids.length : ℚ)) := by
    unfold belongsToWeights
    rw [if_neg hne, List.map_map]
    rfl
  constructor
  · rw [hweights]
    have hdiv : ((domainCounts papers domains idea).map
        (fun p => (p.2 : ℚ) / (idea.source_paper_ids.length : ℚ))).sum =
        ((domainCounts papers domains idea).map (fun p => (p.2 : ℚ))).sum /
          (idea.source_paper_ids.length : ℚ) := by
      simp only [div_eq_mul_inv]
      exact List.sum_map_mul_right _ _ _
    rw [hdiv]
    have hcast : ((domainCounts papers domains idea).map (fun p => (p.2 : ℚ))).sum =
        (sumCounts (domainCounts papers domains idea) : ℚ) := by
      unfold sumCounts
      rw [Nat.cast_list_sum, List.map_map]
      rfl
    rw [hcast, hsum]
    exact div_self hT.ne'
  · intro w hw
    rw [hweights] at hw
    obtain ⟨p, hp, rfl⟩ := List.mem_map.mp hw
    constructor
    · positivity
    · rw [div_le_one hT]
      have hple : p.2 ≤ sumCounts (domainCounts papers domains idea) :=
        List.single_le_sum (fun x _ => Nat.zero_le x) _
          (List.mem_map.mpr ⟨p, hp, rfl⟩)
      rw [hsum] at hple
      exact_mod_cast hple

theorem claim_C3_witness :
    ((BIdea.mk "i1" ["pp1"]).source_paper_ids ≠ []) ∧
    (∀ ppid ∈ (BIdea.mk "i1" ["pp1"]).source_paper_ids,
      (countedDomainIds [⟨"pp1", ["A"]⟩] [⟨"A", "d1"⟩] ppid).length = 1) ∧
    ((belongsToWeights [⟨"pp1", ["A"]⟩] [⟨"A", "d1"⟩]
      (BIdea.mk "i1" ["pp1"])).map Prod.snd).sum = 1 := by
  have h1 : (BIdea.mk "i1" ["pp1"]).source_paper_ids ≠ [] := by decide
  have h2 : ∀ ppid ∈ (BIdea.mk "i1" ["pp1"]).source_paper_ids,
      (countedDomainIds [⟨"pp1", ["A"]⟩] [⟨"A", "d1"⟩] ppid).length = 1 := by decide
  exact ⟨h1, h2,
    (claim_C3_amended [⟨"pp1", ["A"]⟩] [⟨"A", "d1"⟩] (BIdea.mk "i1" ["pp1"]) h1 h2).1⟩

end Idea2Paper
